import Mathlib

/-!
Formal model of the date-planning chat assistant (dialog controller and
schedule planner), shallowly embedded from the Python sources under
src/src/domain/entities and src/src/application.

Modelling conventions:
* Python `datetime.time` values are minutes-of-day (`Nat` below 1440);
  `datetime.combine(today, t) + timedelta(minutes=m)` followed by `.time()`
  is `(t + m) % 1440`.
* Currency amounts are `Int`, durations `Nat`, ratings and scores `Rat`.
* The planar distance `sqrt(dlat^2 + dlng^2) * 111` is represented by its
  square `distSq = dlat^2 + dlng^2` (a rational); every comparison the
  source makes on the distance is strictly monotone in `distSq`, so the
  thresholds are transported (`d <= 1  <->  12321 * distSq <= 1`, etc.).
  Where the source floors `distance * c` to an int (taxi duration/cost),
  we use an exact integer square root of the transported quantity.
* Wall-clock timestamps (`datetime.now()`, `created_at`, `last_modified`,
  `started_at`) and the uuid-based plan id (nondeterministic, display-only)
  are omitted.
* Agent replies are built from fixed literal templates; they are modelled
  by the inductive `Response`, one constructor per template.
-/

/-- Minutes in a day: Python `time` arithmetic wraps at midnight. -/
def dayMinutes : Nat := 1440

/-- `datetime.combine(today, t) + timedelta(minutes = m)` then `.time()`. -/
def timeAdd (t m : Nat) : Nat := (t + m) % dayMinutes

/-- `datetime.combine(today, t) - timedelta(minutes = m)` then `.time()`:
subtraction borrows into the previous day and wraps. -/
def timeSub (t m : Nat) : Nat := (t + dayMinutes - m % dayMinutes) % dayMinutes

/-- Maximal runs of decimal digits in a character list: `re.findall(r"\d+", s)`. -/
def digitRuns : List Char → List (List Char)
  | [] => []
  | c :: cs =>
    if c.isDigit then
      match digitRuns cs with
      | [] => [[c]]
      | r :: rs => if cs.head?.any (·.isDigit) then (c :: r) :: rs else [c] :: r :: rs
    else digitRuns cs

/-- `int` on a run of decimal digits. -/
def natOfDigits (ds : List Char) : Nat :=
  ds.foldl (fun n c => n * 10 + (c.toNat - 48)) 0

/-- Python `needle in hay` on character lists (substring test). -/
def listContains (hay needle : List Char) : Bool :=
  match hay with
  | [] => needle.isEmpty
  | _ :: t => needle.isPrefixOf hay || listContains t needle

/-- Python substring test on strings. -/
def strContains (hay needle : String) : Bool :=
  listContains hay.toList needle.toList

/-- Python `str.startswith` on strings. -/
def strStartsWith (s pre : String) : Bool :=
  pre.toList.isPrefixOf s.toList

/-- Python `str.strip()`: drop leading and trailing whitespace. -/
def pyStrip (s : String) : String :=
  String.mk (((s.toList.dropWhile Char.isWhitespace).reverse.dropWhile
    Char.isWhitespace).reverse)

/-- Floor of the real square root of a nonnegative rational, computed via
the integer square root: for q = n/d in lowest terms,
`sqrt(n/d) = sqrt(n*d)/d` and flooring commutes with dividing by `d`. -/
def ratFloorSqrt (q : ℚ) : Nat :=
  Nat.sqrt (q.num.toNat * q.den) / q.den

/-- Python `int()` truncation of a rational toward zero: T-division of the
numerator by the (positive) denominator. -/
def pyTrunc (q : ℚ) : Int :=
  q.num.tdiv (q.den : Int)

/-- Mathematical floor of a rational: floor division of the numerator by
the (positive) denominator. -/
def ratFloor (q : ℚ) : Int :=
  q.num.fdiv (q.den : Int)

/-- Lookup in an association-list map (first binding wins). -/
def mapGet {α : Type} : List (String × α) → String → Option α
  | [], _ => none
  | (k, v) :: t, key => if k == key then some v else mapGet t key

/-- Overwrite a binding in an association-list map. -/
def mapSet {α : Type} (m : List (String × α)) (k : String) (v : α) :
    List (String × α) :=
  (k, v) :: m

/-! ## Domain entities: src/src/domain/entities/tourist_spot.py -/

/-- `SpotCategory` enumeration. -/
inductive SpotCategory where
  | CULTURAL_SITE | CAFE | RESTAURANT | MUSEUM | PARK
  | SHOPPING | VIEWPOINT | THEME_PARK | BEACH | GALLERY
  deriving DecidableEq, Repr

/-- The `.value` string of each `SpotCategory` member. -/
def SpotCategory.value : SpotCategory → String
  | .CULTURAL_SITE => "문화재"
  | .CAFE => "카페"
  | .RESTAURANT => "레스토랑"
  | .MUSEUM => "박물관"
  | .PARK => "공원"
  | .SHOPPING => "쇼핑"
  | .VIEWPOINT => "전망대"
  | .THEME_PARK => "테마파크"
  | .BEACH => "해변"
  | .GALLERY => "갤러리"

/-- `Location` dataclass (name, latitude, longitude; address omitted —
display-only). -/
structure Location where
  name : String
  latitude : ℚ
  longitude : ℚ
  deriving DecidableEq, Repr

/-- `Location.__post_init__` constructor validation. -/
def Location.valid (l : Location) : Prop :=
  -90 ≤ l.latitude ∧ l.latitude ≤ 90 ∧ -180 ≤ l.longitude ∧ l.longitude ≤ 180

/-- Squared planar offset underlying `Location.distance_to`; the source
returns `sqrt(distSq) * 111` and only ever compares or floors that value. -/
def Location.distSq (a b : Location) : ℚ :=
  (a.latitude - b.latitude) ^ 2 + (a.longitude - b.longitude) ^ 2

/-- `TouristSpot` dataclass (fields not read by the modelled operations —
opening_hours, description, highlights, tips, accessibility, contacts,
price_range, review_count — are omitted). -/
structure TouristSpot where
  id : String
  name : String
  category : SpotCategory
  location : Location
  rating : ℚ
  estimated_duration : Nat := 60
  estimated_cost : Int := 0
  deriving DecidableEq, Repr

/-- `TouristSpot.__post_init__` constructor validation (plus the location's). -/
def TouristSpot.valid (s : TouristSpot) : Prop :=
  0 ≤ s.rating ∧ s.rating ≤ 5 ∧ 0 < s.estimated_duration ∧
    0 ≤ s.estimated_cost ∧ s.location.valid

/-- `TouristSpot.is_within_budget(budget)`. -/
def TouristSpot.is_within_budget (s : TouristSpot) (budget : Int) : Bool :=
  s.estimated_cost ≤ budget

/-- `TouristSpot.calculate_visit_cost(num_people)`. -/
def TouristSpot.calculate_visit_cost (s : TouristSpot) (num_people : Int) : Int :=
  s.estimated_cost * num_people

/-- `Transportation` dataclass (`distance` and `instructions` are
display-only and omitted; where the source derives numbers from the
distance they are computed directly from `distSq`). -/
structure Transportation where
  mode : String
  duration : Nat
  cost : Int := 0
  deriving DecidableEq, Repr

/-- `DatePlanItem` dataclass. -/
structure DatePlanItem where
  start_time : Nat
  end_time : Nat
  spot : TouristSpot
  transportation_to_next : Option Transportation := none
  notes : String := ""
  priority : Nat := 1
  deriving DecidableEq, Repr

/-- `DatePlanItem.get_duration_minutes`: end minus start, adding a day when
the end time is strictly before the start time (midnight crossing). -/
def DatePlanItem.get_duration_minutes (it : DatePlanItem) : Nat :=
  if it.end_time < it.start_time then it.end_time + dayMinutes - it.start_time
  else it.end_time - it.start_time

/-- `DatePlanItem.get_total_cost(num_people=2)`. -/
def DatePlanItem.get_total_cost (it : DatePlanItem) (num_people : Int := 2) : Int :=
  it.spot.calculate_visit_cost num_people +
    (match it.transportation_to_next with
     | some t => t.cost
     | none => 0)

/-- `DatePlanItem.has_time_conflict(other)`. -/
def DatePlanItem.has_time_conflict (it other : DatePlanItem) : Bool :=
  !(it.end_time ≤ other.start_time || other.end_time ≤ it.start_time)

/-- `DatePlan` dataclass (timestamps, notes, tags, and the opaque target
date are omitted). -/
structure DatePlan where
  plan_id : String
  title : String
  items : List DatePlanItem := []
  total_estimated_cost : Int := 0
  total_duration_minutes : Nat := 0
  deriving DecidableEq, Repr

/-- Sum of `item.get_total_cost()` over a list (default party size). -/
def sumTotalCost (items : List DatePlanItem) : Int :=
  (items.map (fun it => it.get_total_cost)).sum

/-- Sum of `item.get_duration_minutes()` over a list. -/
def sumDuration (items : List DatePlanItem) : Nat :=
  (items.map (fun it => it.get_duration_minutes)).sum

/-- `DatePlan._recalculate_totals`. -/
def DatePlan.recalculate_totals (p : DatePlan) : DatePlan :=
  { p with
    total_estimated_cost := sumTotalCost p.items
    total_duration_minutes := sumDuration p.items }

/-- `DatePlan.add_item`. -/
def DatePlan.add_item (p : DatePlan) (it : DatePlanItem) : DatePlan :=
  DatePlan.recalculate_totals { p with items := p.items ++ [it] }

/-- `DatePlan.remove_item(index)`: out-of-range indices leave the plan
untouched. -/
def DatePlan.remove_item (p : DatePlan) (index : Nat) : DatePlan :=
  if index < p.items.length then
    DatePlan.recalculate_totals
      { p with items := p.items.take index ++ p.items.drop (index + 1) }
  else p

/-- Inner loop of `DatePlan.has_time_conflicts`: indices `j` past `i`. -/
def conflictInner (i : Nat) (it : DatePlanItem) : Nat → List DatePlanItem →
    List (Nat × Nat)
  | _, [] => []
  | j, other :: rest =>
    (if it.has_time_conflict other then [(i, j)] else []) ++
      conflictInner i it (j + 1) rest

/-- Outer loop of `DatePlan.has_time_conflicts`. -/
def conflictOuter : Nat → List DatePlanItem → List (Nat × Nat)
  | _, [] => []
  | i, it :: rest => conflictInner i it (i + 1) rest ++ conflictOuter (i + 1) rest

/-- `DatePlan.has_time_conflicts`: all index pairs `(i, j)`, `i < j`, whose
items' intervals conflict. -/
def DatePlan.has_time_conflicts (p : DatePlan) : List (Nat × Nat) :=
  conflictOuter 0 p.items

/-! ## Domain entities: src/src/domain/entities/conversation.py -/

/-- `ConversationState` enumeration.  Note: the enumeration has exactly the
eight members below; in particular there is no `AWAITING_USER_INPUT`
member, although `dialog_agent.py` refers to one. -/
inductive ConversationState where
  | INITIAL_PLANNING | AWAITING_USER_SELECTION | PLANNING_IN_PROGRESS
  | PRESENTING_RESULTS | AWAITING_FEEDBACK | HANDLING_QUESTIONS
  | MODIFYING_PLAN | PLAN_CONFIRMED
  deriving DecidableEq, Repr

/-- The `.value` string of each `ConversationState` member. -/
def ConversationState.value : ConversationState → String
  | .INITIAL_PLANNING => "initial_planning"
  | .AWAITING_USER_SELECTION => "awaiting_user_selection"
  | .PLANNING_IN_PROGRESS => "planning_in_progress"
  | .PRESENTING_RESULTS => "presenting_results"
  | .AWAITING_FEEDBACK => "awaiting_feedback"
  | .HANDLING_QUESTIONS => "handling_questions"
  | .MODIFYING_PLAN => "modifying_plan"
  | .PLAN_CONFIRMED => "plan_confirmed"

/-- `InteractionType` enumeration. -/
inductive InteractionType where
  | INITIAL_QUERY | SELECTION_REQUIRED | CLARIFICATION_NEEDED
  | INFORMATION_REQUEST | PLAN_MODIFICATION | GENERAL_QUESTION | CONFIRMATION
  deriving DecidableEq, Repr

/-- `UserQuery` dataclass.  The generic `preferences` dict only ever holds
the key "interests" (set through `add_preference("interests", ...)`); it is
modelled by the `interests` field, empty when the key is absent. -/
structure UserQuery where
  text : String
  session_id : String
  location : Option String := none
  budget : Option ℚ := none
  date : Option String := none
  interests : List String := []
  parsed : Bool := false
  confidence_score : ℚ := 0
  deriving DecidableEq, Repr

/-- `UserQuery.has_location`: non-null and non-blank after stripping. -/
def UserQuery.has_location (q : UserQuery) : Bool :=
  match q.location with
  | some s => pyStrip s != ""
  | none => false

/-- `UserQuery.has_budget`: non-null and strictly positive. -/
def UserQuery.has_budget (q : UserQuery) : Bool :=
  match q.budget with
  | some b => 0 < b
  | none => false

/-- `UserQuery.get_interests`. -/
def UserQuery.get_interests (q : UserQuery) : List String := q.interests

/-- `UserQuery.is_complete`. -/
def UserQuery.is_complete (q : UserQuery) : Bool :=
  q.has_location && !(q.get_interests.isEmpty)

/-- `DatePlan` rendering and the other fixed reply templates of
`dialog_agent.py`, one constructor per literal template (arguments are the
interpolated data). -/
inductive Response where
  | clarification (askLocation askInterests askBudget : Bool)
  | noSpotsFound (location : String) (interests : List String)
  | planText (plan : DatePlan)
  | planningError
  | startAskLocation
  | startAskInterests
  | startNeedMoreInfo
  | selectionPrompt (options : List String)
  | selectionNotUnderstood
  | selectionReprompt
  | planSummary (plan : DatePlan)
  | feedbackConfirm
  | feedbackModify
  | feedbackMore
  | genericProcessing
  deriving DecidableEq, Repr

/-- `ConversationTurn` dataclass (timestamp and `extracted_data` omitted). -/
structure ConversationTurn where
  turn_id : String
  user_input : String
  agent_response : Response
  interaction_type : InteractionType
  state_before : Option ConversationState := none
  state_after : Option ConversationState := none
  deriving DecidableEq, Repr

/-- `Conversation` dataclass.  The generic `collected_data` dict only ever
holds the keys "candidate_spots" and "selected_spots"; timestamps are
omitted.  (In Python the turn objects appended by `add_turn` are shared by
reference, so a later `state_before` re-stamp is visible through earlier
list entries; nothing modelled below reads `state_before` back, so the
pure copies are observationally equivalent here.) -/
structure Conversation where
  session_id : String
  current_state : ConversationState := .INITIAL_PLANNING
  initial_query : Option UserQuery := none
  turns : List ConversationTurn := []
  awaiting_user_input : Bool := false
  expected_input_type : Option InteractionType := none
  candidate_spots : Option (List TouristSpot) := none
  selected_spots : Option (List TouristSpot) := none
  current_plan : Option DatePlan := none
  deriving DecidableEq, Repr

/-- `Conversation.add_turn`: stamp `state_before`, append, adopt
`state_after` as the new current state when supplied. -/
def Conversation.add_turn (c : Conversation) (t : ConversationTurn) :
    Conversation :=
  let t' := { t with state_before := some c.current_state }
  { c with
    turns := c.turns ++ [t']
    current_state :=
      match t.state_after with
      | some s => s
      | none => c.current_state }

/-- `Conversation.set_awaiting_input`. -/
def Conversation.set_awaiting_input (c : Conversation)
    (input_type : InteractionType) : Conversation :=
  { c with awaiting_user_input := true, expected_input_type := some input_type }

/-- `Conversation.clear_awaiting_input`. -/
def Conversation.clear_awaiting_input (c : Conversation) : Conversation :=
  { c with awaiting_user_input := false, expected_input_type := none }

/-! ## Planner: src/src/application/agents/planning/schedule_planner.py -/

/-- The planner preference mapping: `user_preferences.get("start_time",
"10:00")`, `.get("budget", float("inf"))` (`none` = the infinite default:
no budget filtering), `.get("location", "서울")`, `.get("interests", [])`. -/
structure PlannerPrefs where
  start_time : Option String := none
  budget : Option ℚ := none
  location : Option String := none
  interests : List String := []
  deriving DecidableEq, Repr

/-- `SchedulePlanner._parse_start_time` helper: `time.fromisoformat` on
"HH:MM" (two-digit fields, valid ranges); anything else raises and falls
back to the default. -/
def parseIsoTime (s : String) : Option Nat :=
  match s.toList with
  | [h1, h2, ':', m1, m2] =>
    if h1.isDigit && h2.isDigit && m1.isDigit && m2.isDigit then
      let h := natOfDigits [h1, h2]
      let m := natOfDigits [m1, m2]
      if h < 24 && m < 60 then some (h * 60 + m) else none
    else none
  | _ => none

/-- `SchedulePlanner._parse_start_time`. -/
def parse_start_time (time_str : String) : Nat :=
  if strContains time_str ":" then
    match parseIsoTime time_str with
    | some t => t
    | none => 600
  else if strContains time_str "시" then
    let cleaned :=
      pyStrip (((time_str.replace "시" "").replace "오전" "").replace "오후" "")
    if cleaned.toList ≠ [] && cleaned.toList.all (·.isDigit) then
      let hour := natOfDigits cleaned.toList
      let hour := if strContains time_str "오후" && hour ≠ 12 then hour + 12
        else hour
      if hour < 24 then hour * 60 else 600
    else 600
  else 600

/-- `SchedulePlanner._calculate_spot_score`. -/
def calculate_spot_score (spot : TouristSpot) (prefs : PlannerPrefs) : ℚ :=
  let score : ℚ := 0
  let score := score + spot.rating / 5 * (0.4 : ℚ)
  let score := score +
    (if spot.category.value ∈ prefs.interests then (0.3 : ℚ) else 0)
  let score := score +
    (if spot.estimated_cost == 0 then (0.2 : ℚ)
     else if spot.estimated_cost < 10000 then (0.15 : ℚ)
     else if spot.estimated_cost < 30000 then (0.1 : ℚ)
     else 0)
  let score := score +
    (if 60 ≤ spot.estimated_duration && spot.estimated_duration ≤ 180 then
      (0.1 : ℚ) else 0)
  score

/-- Stable insertion for a descending sort: a new element goes after every
already-placed element whose key is at least as large (Python's stable
`list.sort(key=..., reverse=True)`). -/
def insDesc {α β : Type} [LinearOrder β] (key : α → β) (x : α) :
    List α → List α
  | [] => [x]
  | y :: ys => if key y < key x then x :: y :: ys else y :: insDesc key x ys

/-- Stable descending sort by key. -/
def sortDesc {α β : Type} [LinearOrder β] (key : α → β) (l : List α) :
    List α :=
  l.foldl (fun acc x => insDesc key x acc) []

/-- `SchedulePlanner._optimize_spots`: budget filter at one third of the
total budget per spot (`budget // 3`; the infinite default keeps all),
stable descending sort by score, top `min(5, n)`. -/
def optimize_spots (spots : List TouristSpot) (budget : Option ℚ)
    (prefs : PlannerPrefs) : List TouristSpot :=
  let affordable := spots.filter (fun s =>
    match budget with
    | some b => s.is_within_budget (ratFloor (b / 3))
    | none => true)
  (sortDesc (fun s => calculate_spot_score s prefs) affordable).take 5

/-- Python `min(remaining, key=f)`: first element attaining the minimum. -/
def pickMin {α : Type} (f : α → ℚ) : α → List α → α
  | best, [] => best
  | best, x :: xs => if f x < f best then pickMin f x xs else pickMin f best xs

/-- Greedy nearest-neighbour loop of `_optimize_visit_order`.  The fuel is
the length of `remaining`: each pass removes the chosen element, so the
zero-fuel branch is unreachable at the call below. -/
def orderLoop : Nat → TouristSpot → List TouristSpot → List TouristSpot
  | 0, _, _ => []
  | _ + 1, _, [] => []
  | fuel + 1, last, x :: xs =>
    let closest := pickMin (fun s => last.location.distSq s.location) x xs
    closest :: orderLoop fuel closest ((x :: xs).erase closest)

/-- `SchedulePlanner._optimize_visit_order`. -/
def optimize_visit_order (spots : List TouristSpot) : List TouristSpot :=
  match spots with
  | [] => []
  | [s] => [s]
  | s :: rest => s :: orderLoop rest.length s rest

/-- `SchedulePlanner._allocate_time_slots`: each stop takes its estimated
duration plus a 15-minute buffer; 30 travel minutes before each later
stop; all clock arithmetic wraps at midnight. -/
def allocate_time_slots : List TouristSpot → Nat → List DatePlanItem
  | [], _ => []
  | spot :: rest, current_time =>
    let item_end := timeAdd current_time (spot.estimated_duration + 15)
    { start_time := current_time
      end_time := item_end
      spot := spot
      notes := spot.category.value ++ " 방문" } ::
      allocate_time_slots rest (timeAdd item_end 30)

/-- Transportation record for one consecutive pair in
`_add_transportation_info`, driven by the planar distance (here by its
square `q`): walking within 1 km, public transport within 5 km, otherwise
taxi with floored duration `distance*3` and cost `distance*1000`. -/
def mkTransportation (a b : TouristSpot) : Transportation :=
  let q := a.location.distSq b.location
  if 12321 * q ≤ 1 then
    { mode := "walking", duration := 15, cost := 0 }
  else if 12321 * q ≤ 25 then
    { mode := "public_transport", duration := 25, cost := 1500 }
  else
    { mode := "taxi"
      duration := ratFloorSqrt (110889 * q)
      cost := (ratFloorSqrt (12321000000 * q) : Int) }

/-- `SchedulePlanner._add_transportation_info`: every item but the last
gets the transportation to its successor. -/
def add_transportation_info : List DatePlanItem → List DatePlanItem
  | [] => []
  | [x] => [x]
  | x :: y :: rest =>
    { x with transportation_to_next := some (mkTransportation x.spot y.spot) } ::
      add_transportation_info (y :: rest)

/-- `SchedulePlanner.create_date_plan` (the uuid in `plan_id` is
nondeterministic and modelled by a fixed tag). -/
def create_date_plan (spots : List TouristSpot) (prefs : PlannerPrefs) :
    DatePlan :=
  let start_time := parse_start_time (prefs.start_time.getD "10:00")
  let optimized := optimize_spots spots prefs.budget prefs
  let ordered := optimize_visit_order optimized
  let plan_items := allocate_time_slots ordered start_time
  let plan_items := add_transportation_info plan_items
  DatePlan.recalculate_totals
    { plan_id := "plan"
      title := prefs.location.getD "서울" ++ " 데이트 플랜"
      items := plan_items }

/-- `SchedulePlanner._recalculate_schedule_times` inner walk: each later
item restarts at the previous item's end plus the recorded outbound travel
duration (default 30), keeping its own duration. -/
def recalcTimesWalk : DatePlanItem → List DatePlanItem → List DatePlanItem
  | _, [] => []
  | prev, cur :: rest =>
    let travel :=
      match prev.transportation_to_next with
      | some t => t.duration
      | none => 30
    let new_start := timeAdd prev.end_time travel
    let new_end := timeAdd new_start cur.get_duration_minutes
    let cur' := { cur with start_time := new_start, end_time := new_end }
    cur' :: recalcTimesWalk cur' rest

/-- `SchedulePlanner._recalculate_schedule_times`: the first item keeps its
slot, the rest are re-chained. -/
def recalculate_schedule_times : List DatePlanItem → List DatePlanItem
  | [] => []
  | first :: rest => first :: recalcTimesWalk first rest

/-- The per-modification parameter dict (keys read by the planner:
"pace", "target_budget", "direction", "spot_id", "alternatives"). -/
structure ModifyParams where
  pace : Option String := none
  target_budget : Option Int := none
  direction : Option String := none
  spot_id : Option String := none
  alternatives : List TouristSpot := []
  deriving DecidableEq, Repr

/-- `SchedulePlanner._adjust_timing`: "relaxed" extends each end time by
30 minutes; "tight" shortens by 20 but only when the result stays past the
item's own start; then the chain is re-timed and totals recomputed. -/
def adjust_timing (plan : DatePlan) (params : ModifyParams) : DatePlan :=
  let pace := params.pace.getD "normal"
  let items :=
    if pace == "relaxed" then
      plan.items.map (fun it => { it with end_time := timeAdd it.end_time 30 })
    else if pace == "tight" then
      plan.items.map (fun it =>
        let e := timeSub it.end_time 20
        if it.start_time < e then { it with end_time := e } else it)
    else plan.items
  DatePlan.recalculate_totals
    { plan with items := recalculate_schedule_times items }

/-- One budget-trim loop state: the current item list and the stored
aggregate cost and duration (`_recalculate_totals` runs inside the loop). -/
structure TrimState where
  items : List DatePlanItem
  total_estimated_cost : Int
  total_duration_minutes : Nat
  removed : List DatePlanItem
  deriving DecidableEq, Repr

/-- The `while` loop of `SchedulePlanner._adjust_budget`, with the
descending-cost list as explicit state and fuel counting iterations.
`none` models abnormal behaviour (fuel exhaustion, or indexing an empty
sorted list, both impossible when the sorted list enumerates the items:
see `trim_loop_terminates`).  `removed` records the removal order. -/
def trimLoop (target : Int) :
    Nat → TrimState → List DatePlanItem → Option TrimState
  | 0, _, _ => none
  | fuel + 1, st, sorted =>
    if target < st.total_estimated_cost && 1 < st.items.length then
      match sorted with
      | [] => none
      | expensive :: rest =>
        let items' :=
          if expensive ∈ st.items then st.items.erase expensive else st.items
        trimLoop target fuel
          { items := items'
            total_estimated_cost := sumTotalCost items'
            total_duration_minutes := sumDuration items'
            removed := st.removed ++ [expensive] } rest
    else some st

/-- `parameters.get("target_budget", plan.total_estimated_cost)`. -/
def trimTarget (plan : DatePlan) (params : ModifyParams) : Int :=
  params.target_budget.getD plan.total_estimated_cost

/-- `plan.items` sorted by spot cost, descending (`sorted_items`). -/
def sortedByCost (plan : DatePlan) : List DatePlanItem :=
  sortDesc (fun it => it.spot.estimated_cost) plan.items

/-- The loop state `_adjust_budget` starts from: the plan's own item list
and stored totals, nothing removed yet. -/
def initTrimState (plan : DatePlan) : TrimState :=
  { items := plan.items
    total_estimated_cost := plan.total_estimated_cost
    total_duration_minutes := plan.total_duration_minutes
    removed := [] }

/-- Run of the `_adjust_budget` loop on a plan.  The `getD` default is
dead code: `trim_loop_terminates` shows the loop exits normally within
the given fuel. -/
def trimRun (plan : DatePlan) (params : ModifyParams) : TrimState :=
  (trimLoop (trimTarget plan params) (plan.items.length + 1)
    (initTrimState plan) (sortedByCost plan)).getD (initTrimState plan)

/-- `SchedulePlanner._adjust_budget`: on a decrease request whose target is
below the stored total, repeatedly drop the remaining item with the
highest spot cost (never going below one item), recomputing totals after
each removal. -/
def adjust_budget (plan : DatePlan) (params : ModifyParams) : DatePlan :=
  if params.direction.getD "decrease" == "decrease" &&
      trimTarget plan params < plan.total_estimated_cost then
    let st := trimRun plan params
    { plan with
      items := st.items
      total_estimated_cost := st.total_estimated_cost
      total_duration_minutes := st.total_duration_minutes }
  else plan

/-- The removal order `_adjust_budget` follows on a plan (instrumentation
for stating theorems; same loop, same inputs). -/
def adjust_budget_removed (plan : DatePlan) (params : ModifyParams) :
    List DatePlanItem :=
  if params.direction.getD "decrease" == "decrease" &&
      trimTarget plan params < plan.total_estimated_cost then
    (trimRun plan params).removed
  else []

/-- Walk of `SchedulePlanner._replace_spots`: replace the first item whose
spot id matches, when an alternative exists. -/
def replaceWalk (spot_id : Option String) (alts : List TouristSpot) :
    List DatePlanItem → List DatePlanItem
  | [] => []
  | it :: rest =>
    if some it.spot.id == spot_id && !alts.isEmpty then
      (match alts with
       | new_spot :: _ => { it with spot := new_spot }
       | [] => it) :: rest
    else it :: replaceWalk spot_id alts rest

/-- `SchedulePlanner._replace_spots`. -/
def replace_spots (plan : DatePlan) (params : ModifyParams) : DatePlan :=
  DatePlan.recalculate_totals
    { plan with items := replaceWalk params.spot_id params.alternatives plan.items }

/-- `SchedulePlanner.modify_plan` dispatch. -/
def modify_plan (plan : DatePlan) (modification_type : String)
    (params : ModifyParams) : DatePlan :=
  if modification_type == "time_adjustment" then adjust_timing plan params
  else if modification_type == "budget_adjustment" then adjust_budget plan params
  else if modification_type == "spot_replacement" then replace_spots plan params
  else plan

/-! ## Dialog agent: src/src/application/agents/dialog/dialog_agent.py -/

/-- JSON value under the "budget" key of an extraction result: a number,
or a string to be cleaned ("10만원" style). -/
inductive BudgetValue where
  | num (q : ℚ)
  | str (s : String)
  deriving DecidableEq, Repr

/-- JSON value under the "interests" key: a list of strings or a single
comma-separated string. -/
inductive InterestsValue where
  | list (l : List String)
  | str (s : String)
  deriving DecidableEq, Repr

/-- A non-empty entity dict returned by the opaque extractor
(`_extract_entities_with_gemini`); `none` at the use sites stands for the
empty dict produced on any extraction failure. -/
structure ExtractedEntities where
  location : Option String := none
  budget : Option BudgetValue := none
  date : Option String := none
  interests : Option InterestsValue := none
  deriving DecidableEq, Repr

/-- The opaque venue catalog: `SuperAgent.search_spots(location, interests,
budget)`. -/
def SearchFn : Type := String → List String → Int → List TouristSpot

/-- `float()` on a cleaned budget string (digits and dots only): at most
one dot and at least one digit, else `ValueError` (`none`). -/
def parseFloatDigits (cs : List Char) : Option ℚ :=
  if 1 < cs.count '.' then none
  else if !cs.any Char.isDigit then none
  else
    let intPart := cs.takeWhile (· ≠ '.')
    let fracPart := (cs.dropWhile (· ≠ '.')).drop 1
    some ((natOfDigits intPart : ℚ) +
      (natOfDigits fracPart : ℚ) / ((10 : ℚ) ^ fracPart.length))

/-- Budget-string normalisation in `parse_user_query`: strip every
character that is not a digit or a dot, then `float`; empty or unparsable
remainders yield `None`. -/
def cleanBudget (s : String) : Option ℚ :=
  let cleaned := s.toList.filter (fun c => c.isDigit || c == '.')
  if cleaned.isEmpty then none else parseFloatDigits cleaned

/-- Location summand of `_calculate_confidence_from_gemini`:
`if entities.get("location"): score += 0.35` (truthy = non-empty). -/
def locationScore : Option String → ℚ
  | some s => if s == "" then 0 else (0.35 : ℚ)
  | none => 0

/-- Date summand: `if entities.get("date"): score += 0.25`. -/
def dateScore : Option String → ℚ
  | some s => if s == "" then 0 else (0.25 : ℚ)
  | none => 0

/-- Interests summand: 0.20 for a non-empty list, 0.10 for a non-empty
string, 0 otherwise. -/
def interestsScore : Option InterestsValue → ℚ
  | some (.list l) => if l.isEmpty then 0 else (0.20 : ℚ)
  | some (.str s) => if s == "" then 0 else (0.10 : ℚ)
  | none => 0

/-- Budget summand: `if entities.get("budget") is not None: score += 0.10`
(any non-null value, truthy or not). -/
def budgetScore : Option BudgetValue → ℚ
  | some _ => (0.10 : ℚ)
  | none => 0

/-- `DialogAgent._calculate_confidence_from_gemini` over the raw entity
dict: the four `score +=` steps and the final `min(score, 1.0)` cap. -/
def calculate_confidence_from_gemini (e : ExtractedEntities) : ℚ :=
  min (0 + locationScore e.location + dateScore e.date +
    interestsScore e.interests + budgetScore e.budget) 1

/-- `DialogAgent.parse_user_query`: build a `UserQuery` from one turn's
extraction (`none` = extraction failed or model unavailable: unparsed,
zero confidence). -/
def parse_user_query (user_input session_id : String)
    (ext : Option ExtractedEntities) : UserQuery :=
  match ext with
  | none =>
    { text := user_input, session_id := session_id
      parsed := false, confidence_score := 0 }
  | some e =>
    { text := user_input
      session_id := session_id
      location := e.location
      budget :=
        match e.budget with
        | some (.num q) => some q
        | some (.str s) => cleanBudget s
        | none => none
      date := e.date
      interests :=
        match e.interests with
        | some (.list l) => l.filter (fun i => i ≠ "")
        | some (.str s) =>
          if s ≠ "" then ((s.splitOn ",").map pyStrip).filter (fun i => i ≠ "")
          else []
        | none => []
      parsed := true
      confidence_score := calculate_confidence_from_gemini e }

/-- `DialogAgent._generate_clarification_request`: one question per
missing field. -/
def generate_clarification_request (q : UserQuery) : Response :=
  .clarification (!q.has_location) q.get_interests.isEmpty (!q.has_budget)

/-- The merge step of `_handle_initial_planning` (dialog_agent.py lines
355-366): fill `location`/`budget` only when the running value is falsy
(null, empty string, zero) and the new value is truthy; replace the
interest list by the duplicate-free union (Python's `list(set(...))` has
unspecified order; only its set content is ever used downstream, so any
duplicate-free enumeration represents it). -/
def mergeIntoInitialQuery (initial additional : UserQuery) : UserQuery :=
  let initial :=
    if additional.location.any (fun s => s != "") &&
        !(initial.location.any (fun s => s != "")) then
      { initial with location := additional.location }
    else initial
  let initial :=
    if additional.budget.any (fun b => b != 0) &&
        !(initial.budget.any (fun b => b != 0)) then
      { initial with budget := additional.budget }
    else initial
  { initial with
    interests := (initial.get_interests ++ additional.get_interests).dedup }

/-- The planner preference dict seen from a `UserQuery`: its `preferences`
dict holds only the "interests" key, so every other planner key falls back
to its default. -/
def queryPrefs (q : UserQuery) : PlannerPrefs :=
  { interests := q.interests }

/-- Result of one state handler: the (aliased, possibly mutated)
conversation, the reply, the next state, plus instrumentation recording
whether venue search ran and which spots a selection resolved to. -/
structure HandlerResult where
  conv : Conversation
  response : Response
  next : ConversationState
  searchInvoked : Bool := false
  selected : List TouristSpot := []
  deriving Repr

/-- `DialogAgent._handle_initial_planning`: extract, merge into the running
query, then either search and prompt for a selection (complete) or ask a
clarifying question (incomplete).  The source merges only when
`conversation.initial_query` is set and then re-reads it, so the single
top-level match below covers both reads: when the running query is absent
it stays absent (never complete) and the clarification falls back to the
freshly extracted query. -/
def handle_initial_planning (conv : Conversation) (user_input : String)
    (ext : Option ExtractedEntities) (search : SearchFn) : HandlerResult :=
  match conv.initial_query with
  | none =>
    { conv := conv
      response := generate_clarification_request
        (parse_user_query user_input conv.session_id ext)
      next := .INITIAL_PLANNING }
  | some iq =>
    let q := mergeIntoInitialQuery iq
      (parse_user_query user_input conv.session_id ext)
    if q.is_complete then
      let spots := search (q.location.getD "") q.get_interests
        (pyTrunc (q.budget.getD 0))
      { conv :=
          { conv with
            initial_query := some q
            candidate_spots := some spots
            awaiting_user_input := true
            expected_input_type := some .SELECTION_REQUIRED
            current_state := .AWAITING_USER_SELECTION }
        response := .selectionPrompt (spots.enum.map
          (fun p => toString (p.1 + 1) ++ ". " ++ p.2.name))
        next := .AWAITING_USER_SELECTION
        searchInvoked := true }
    else
      { conv := { conv with initial_query := some q }
        response := generate_clarification_request q
        next := .INITIAL_PLANNING }

/-- A parsed selection token: a numeric reference or a literal place name. -/
inductive SelToken where
  | option (n : Nat)
  | place (s : String)
  deriving DecidableEq, Repr

/-- The fixed place-name list in `_parse_selections`. -/
def knownPlaces : List String := ["경복궁", "인사동", "남산", "홍대", "명동"]

/-- `DialogAgent._parse_selections`: every digit run becomes a numeric
token; every known place name occurring in the input becomes a name
token. -/
def parse_selections (user_input : String) : List SelToken :=
  (digitRuns user_input.toList).map (fun r => SelToken.option (natOfDigits r)) ++
    (knownPlaces.filter (fun p => strContains user_input p)).map SelToken.place

/-- Selection resolution inside `_handle_user_selection`: numeric tokens
are 1-based indices into the candidates (out of range: ignored); name
tokens collect every candidate whose name starts with the token. -/
def resolveSelections (tokens : List SelToken)
    (candidates : List TouristSpot) : List TouristSpot :=
  tokens.flatMap (fun t =>
    match t with
    | .option n =>
      if n = 0 then []
      else
        match candidates.drop (n - 1) with
        | c :: _ => [c]
        | [] => []
    | .place s => candidates.filter (fun spot => strStartsWith spot.name s))

/-- `DialogAgent._handle_user_selection`.  The `.error` branch is the
`AttributeError` Python raises reading `.preferences` of a `None`
`initial_query` (unreachable for conversations this agent creates). -/
def handle_user_selection (conv : Conversation) (user_input : String) :
    Except Unit HandlerResult :=
  if (parse_selections user_input).isEmpty then
    .ok { conv := conv, response := .selectionReprompt
          next := .AWAITING_USER_SELECTION }
  else if (resolveSelections (parse_selections user_input)
      (conv.candidate_spots.getD [])).isEmpty then
    .ok { conv := conv, response := .selectionNotUnderstood
          next := .AWAITING_USER_SELECTION }
  else
    match conv.initial_query with
    | none => .error ()
    | some q =>
      let selected := resolveSelections (parse_selections user_input)
        (conv.candidate_spots.getD [])
      let plan := create_date_plan selected (queryPrefs q)
      .ok { conv :=
              { conv with
                selected_spots := some selected
                current_plan := some plan
                current_state := .PRESENTING_RESULTS
                awaiting_user_input := false
                expected_input_type := none }
            response := .planSummary plan
            next := .PRESENTING_RESULTS, selected := selected }

/-- `DialogAgent._handle_result_feedback`: confirmation keywords confirm
the plan, modification keywords open modification, anything else stays. -/
def handle_result_feedback (conv : Conversation) (user_input : String) :
    HandlerResult :=
  if ["좋아", "마음에 들어", "완벽", "확정"].any
      (fun w => strContains user_input w) then
    { conv := conv, response := .feedbackConfirm, next := .PLAN_CONFIRMED }
  else if ["수정", "바꿔", "다른", "변경"].any
      (fun w => strContains user_input w) then
    { conv := conv, response := .feedbackModify, next := .MODIFYING_PLAN }
  else
    { conv := conv, response := .feedbackMore, next := .PRESENTING_RESULTS }

/-- `DialogAgent._handle_general_input`: generic reply, state unchanged. -/
def handle_general_input (conv : Conversation) : HandlerResult :=
  { conv := conv, response := .genericProcessing, next := conv.current_state }

/-- `DialogAgent._process_by_state` dispatch. -/
def process_by_state (conv : Conversation) (user_input : String)
    (ext : Option ExtractedEntities) (search : SearchFn) :
    Except Unit HandlerResult :=
  match conv.current_state with
  | .INITIAL_PLANNING => .ok (handle_initial_planning conv user_input ext search)
  | .AWAITING_USER_SELECTION => handle_user_selection conv user_input
  | .PRESENTING_RESULTS => .ok (handle_result_feedback conv user_input)
  | _ => .ok (handle_general_input conv)

/-- `DialogAgent._determine_interaction_type`: a pending expected input
type wins; otherwise keyword classification. -/
def determine_interaction_type (conv : Conversation) (user_input : String) :
    InteractionType :=
  if conv.awaiting_user_input && conv.expected_input_type.isSome then
    conv.expected_input_type.getD .GENERAL_QUESTION
  else if ["선택", "고르"].any (fun w => strContains user_input w) then
    .SELECTION_REQUIRED
  else if strContains user_input "?" ||
      ["뭐", "어떤", "언제"].any (fun w => strContains user_input w) then
    .INFORMATION_REQUEST
  else if ["수정", "바꿔", "변경"].any (fun w => strContains user_input w) then
    .PLAN_MODIFICATION
  else
    .GENERAL_QUESTION

/-- The combined per-session state: the `DialogAgent.conversation_memory`
dict and the `ConversationManager`/`ContextStore` dict.  Both dicts hold
object references; `conversation_memory` and the store hold distinct
objects for the same session (each side constructs its own), while within
one dict every load returns the stored object itself, so a mutation of a
loaded conversation is a mutation of the stored one. -/
structure AgentState where
  memory : List (String × Conversation) := []
  store : List (String × Conversation) := []

/-- Result of `DialogAgent.start_conversation`: the post-call state,
whether venue search ran, and the returned pair — `.error` models the
call raising `AttributeError`. -/
structure StartResult where
  state : AgentState
  searchInvoked : Bool
  outcome : Except Unit (Response × String)

/-- `DialogAgent.start_conversation`.  Both conversation objects are
created and registered first (lines 187-193).  Every later branch then
executes `conversation.current_state = ConversationState.AWAITING_USER_INPUT`
(lines 215, 231, 236, 245) — but the `ConversationState` enumeration has
no member of that name, so the attribute access raises `AttributeError`:
inside the `try` of the complete branch it is caught at line 233 and
re-raised by the identical assignment at line 236 in the handler; in the
incomplete branch (line 245) it is raised directly.  The call therefore
never reaches the turn-recording code (lines 248-257) and never returns;
`.error ()` models the escaping exception. -/
def start_conversation (st : AgentState) (session_id user_input : String)
    (ext : Option ExtractedEntities) (search : SearchFn) : StartResult :=
  let q := parse_user_query user_input session_id ext
  let memConv : Conversation :=
    { session_id := session_id, initial_query := some q
      current_state := .INITIAL_PLANNING }
  let storeConv : Conversation :=
    { session_id := session_id, initial_query := some q }
  let st1 : AgentState :=
    { memory := mapSet st.memory session_id memConv
      store := mapSet st.store session_id storeConv }
  if q.location.any (fun s => s != "") && !q.get_interests.isEmpty then
    let spots := search (q.location.getD "") q.get_interests
      (match q.budget with
       | some b => pyTrunc b
       | none => 0)
    if spots.isEmpty then
      { state := st1, searchInvoked := true, outcome := .error () }
    else
      let _plan := create_date_plan spots (queryPrefs q)
      { state := st1, searchInvoked := true, outcome := .error () }
  else
    { state := st1, searchInvoked := false, outcome := .error () }

/-- Result of `DialogAgent.handle_user_input`: post-call state, outcome
(response, state value string, awaiting flag), the conversation the store
holds for the session afterwards, and the search instrumentation flag. -/
structure HandleResult where
  state : AgentState
  outcome : Except Unit (Response × String × Option Bool)
  convAfter : Option Conversation
  searchInvoked : Bool

/-- `DialogAgent.handle_user_input`: unknown sessions fall back to
`start_conversation`; otherwise the current state's handler runs on the
stored conversation object, one turn is built and then appended twice to
that same object — once directly (line 275) and once through
`ConversationManager.update_turn`, which loads the very same object from
the store and calls `add_turn` on it again (line 276).  On a handler
exception the store keeps its pre-call binding (the only raising path
needs a conversation without an initial query, which this agent never
creates). -/
def handle_user_input (st : AgentState) (session_id user_input : String)
    (ext : Option ExtractedEntities) (search : SearchFn) : HandleResult :=
  match mapGet st.store session_id with
  | none =>
    let r := start_conversation st session_id user_input ext search
    { state := r.state
      outcome :=
        match r.outcome with
        | .error e => .error e
        | .ok (resp, stateValue) => .ok (resp, stateValue, none)
      convAfter := mapGet r.state.store session_id
      searchInvoked := r.searchInvoked }
  | some _conv =>
    match process_by_state _conv user_input ext search with
    | .error e =>
      { state := st, outcome := .error e
        convAfter := mapGet st.store session_id, searchInvoked := false }
    | .ok hr =>
      let conv1 := hr.conv
      let turn : ConversationTurn :=
        { turn_id := "turn_" ++ toString (conv1.turns.length + 1)
          user_input := user_input
          agent_response := hr.response
          interaction_type := determine_interaction_type conv1 user_input
          state_after := some hr.next }
      let conv2 := conv1.add_turn turn
      let st2 : AgentState := { st with store := mapSet st.store session_id conv2 }
      let conv3 := conv2.add_turn turn
      let st3 : AgentState :=
        { st2 with store := mapSet st2.store session_id conv3 }
      { state := st3
        outcome := .ok (hr.response, conv3.current_state.value,
          some conv3.awaiting_user_input)
        convAfter := some conv3
        searchInvoked := hr.searchInvoked }

/-! ## Derived predicates and spec-side formulations -/

/-- The aggregate invariant of claim C4: stored totals equal the per-item
sums. -/
def planTotalsConsistent (p : DatePlan) : Prop :=
  p.total_estimated_cost = sumTotalCost p.items ∧
    p.total_duration_minutes = sumDuration p.items

/-- The fixed-party-size cost formula of claim C10: spot cost times two
plus the outbound transportation cost (zero when absent). -/
def itemCostFormula (it : DatePlanItem) : Int :=
  it.spot.estimated_cost * 2 +
    (match it.transportation_to_next with
     | some t => t.cost
     | none => 0)

/-- Claim C10's aggregate form of the stored total cost. -/
def planCostFixedParty (p : DatePlan) : Prop :=
  p.total_estimated_cost = (p.items.map itemCostFormula).sum

/-- The total number of minutes `_allocate_time_slots` advances the clock
over a spot sequence: per-stop duration plus 15-minute buffer, plus a
30-minute travel gap before each later stop. -/
def scheduleSpan : List TouristSpot → Nat
  | [] => 0
  | [s] => s.estimated_duration + 15
  | s :: rest => s.estimated_duration + 15 + 30 + scheduleSpan rest

/-- One-pass formulation of the selection resolution (the amended claim
C9): each digit run is a 1-based index into the candidates (out of range:
nothing); each of the five known place names occurring in the input
selects every candidate whose name it prefixes; the concatenation of the
numeric results and the name results is the selection. -/
def selectionResolutionSpec (user_input : String)
    (candidates : List TouristSpot) : List TouristSpot :=
  ((digitRuns user_input.toList).map natOfDigits).flatMap (fun n =>
    if 1 ≤ n ∧ n ≤ candidates.length then (candidates.drop (n - 1)).take 1
    else []) ++
  (knownPlaces.filter (fun p => strContains user_input p)).flatMap (fun p =>
    candidates.filter (fun c => strStartsWith c.name p))

/-- The start/end pair of an item (transportation attachment keeps it). -/
def itemTimes (it : DatePlanItem) : Nat × Nat := (it.start_time, it.end_time)

/-- `has_time_conflict` as a function of the two time pairs alone. -/
def timeConflict (p q : Nat × Nat) : Bool :=
  !(p.2 ≤ q.1 || q.2 ≤ p.1)

/-! ## Concrete example data for the claims -/

/-- A search function returning nothing (stand-in for an empty catalog). -/
def noSearchFn : SearchFn := fun _ _ _ => []

/-- Shared example location. -/
def locSeoul : Location := { name := "서울", latitude := 37, longitude := 127 }

/-- Example spot for the C1 scenario's catalog. -/
def spotGyeongbok : TouristSpot :=
  { id := "spot1", name := "경복궁", category := .CULTURAL_SITE
    location := locSeoul, rating := 4.5
    estimated_duration := 120, estimated_cost := 3000 }

/-- A catalog that always finds the palace. -/
def searchOneSpot : SearchFn := fun _ _ _ => [spotGyeongbok]

/-- The C1 scenario's extraction: 서울, 문화재, 100000. -/
def extSeoul : ExtractedEntities :=
  { location := some "서울", budget := some (.num 100000)
    interests := some (.list ["문화재"]) }

/-- An existing conversation with no turns for the C2 scenario. -/
def convExisting : Conversation :=
  { session_id := "s", initial_query := some { text := "hi", session_id := "s" } }

/-- Agent state whose store already holds `convExisting`. -/
def stExisting : AgentState := { store := [("s", convExisting)] }

/-- A 600-minute spot (ten-hour stay) used to push a schedule past
midnight. -/
def longSpot (i : String) : TouristSpot :=
  { id := i, name := "롱" ++ i, category := .PARK, location := locSeoul
    rating := 4, estimated_duration := 600, estimated_cost := 0 }

/-- Three ten-hour spots: their allocation wraps past midnight. -/
def threeLongSpots : List TouristSpot :=
  [longSpot "a", longSpot "b", longSpot "c"]

/-- Two one-hour spots: their allocation fits the day comfortably. -/
def twoShortSpots : List TouristSpot :=
  [{ id := "s1", name := "카페1", category := .CAFE, location := locSeoul
     rating := 4, estimated_duration := 60, estimated_cost := 5000 },
   { id := "s2", name := "카페2", category := .CAFE, location := locSeoul
     rating := 4.2, estimated_duration := 60, estimated_cost := 6000 }]

/-- A spot with a given id and cost (everything else neutral). -/
def costSpot (i : String) (c : Int) : TouristSpot :=
  { id := i, name := "스팟" ++ i, category := .PARK, location := locSeoul
    rating := 4, estimated_duration := 60, estimated_cost := c }

/-- A one-hour plan item starting at minute `t` for a given spot. -/
def hourItem (s : TouristSpot) (t : Nat) : DatePlanItem :=
  { start_time := t, end_time := t + 60, spot := s }

/-- The C8 example plan: items costing 5000, 20000 and 8000. -/
def trimPlan8 : DatePlan :=
  DatePlan.recalculate_totals
    { plan_id := "p8", title := "t8"
      items := [hourItem (costSpot "a" 5000) 600,
                hourItem (costSpot "b" 20000) 700,
                hourItem (costSpot "c" 8000) 800] }

/-- The C8 example request: decrease to a total budget of 1000. -/
def trimParams8 : ModifyParams :=
  { target_budget := some 1000, direction := some "decrease" }

/-- A small internally consistent plan for invariant witnesses. -/
def planW : DatePlan :=
  DatePlan.recalculate_totals
    { plan_id := "w", title := "w"
      items := [hourItem (costSpot "w1" 4000) 600,
                hourItem (costSpot "w2" 9000) 700] }

/-- Conversation whose running query has the non-null but blank location
`" "` and a non-empty interest list (C5 counterexample). -/
def convBlankLoc : Conversation :=
  { session_id := "s5", current_state := .INITIAL_PLANNING
    initial_query := some
      { text := "t", session_id := "s5", location := some " "
        interests := ["카페"] } }

/-- Conversation whose running query is `Query(location="서울",
interests=["카페"])` (C5 positive example). -/
def convSeoulCafe : Conversation :=
  { session_id := "s5", current_state := .INITIAL_PLANNING
    initial_query := some
      { text := "t", session_id := "s5", location := some "서울"
        interests := ["카페"] } }

/-- Conversation whose running query is `Query(location=None,
interests=["카페"])` (C5 negative example). -/
def convNoneLoc : Conversation :=
  { session_id := "s5", current_state := .INITIAL_PLANNING
    initial_query := some
      { text := "t", session_id := "s5", interests := ["카페"] } }

/-- Running query holding the non-null empty-string location (C6
counterexample). -/
def qEmptyLoc : UserQuery :=
  { text := "t", session_id := "s6", location := some ""
    budget := some 0, date := some "내일", interests := ["카페"] }

/-- A later extraction carrying a new location and budget. -/
def extBusan : ExtractedEntities :=
  { location := some "부산", budget := some (.num 50000)
    interests := some (.list ["공원"]) }

/-- Conversation carrying `qEmptyLoc` (C6 counterexample vehicle). -/
def convEmptyLoc : Conversation :=
  { session_id := "s6", current_state := .INITIAL_PLANNING
    initial_query := some qEmptyLoc }

/-- Candidate spots named A, B, C for the C9 selection examples. -/
def candA : TouristSpot :=
  { id := "A", name := "A", category := .CAFE, location := locSeoul, rating := 4 }

/-- Candidate B. -/
def candB : TouristSpot :=
  { id := "B", name := "B", category := .CAFE, location := locSeoul, rating := 4 }

/-- Candidate C. -/
def candC : TouristSpot :=
  { id := "C", name := "C", category := .CAFE, location := locSeoul, rating := 4 }

/-- A candidate whose name `한강공원` the input `한강` prefixes (C9
counterexample). -/
def hangangSpot : TouristSpot :=
  { id := "H", name := "한강공원", category := .PARK, location := locSeoul
    rating := 4 }

/-- Selection-state conversation with candidates [A, B, C]. -/
def convSelABC : Conversation :=
  { session_id := "s9", current_state := .AWAITING_USER_SELECTION
    initial_query := some { text := "t", session_id := "s9", interests := ["카페"] }
    candidate_spots := some [candA, candB, candC]
    awaiting_user_input := true
    expected_input_type := some .SELECTION_REQUIRED }

/-- Selection-state conversation whose sole candidate is 경복궁. -/
def convSelGyeong : Conversation :=
  { convSelABC with candidate_spots := some [spotGyeongbok] }

/-- Selection-state conversation whose sole candidate is 한강공원. -/
def convSelHangang : Conversation :=
  { convSelABC with candidate_spots := some [hangangSpot] }

/-- A fully specified running query (every attribute truthy). -/
def qFull : UserQuery :=
  { text := "t", session_id := "s6", location := some "서울"
    budget := some 100000, date := some "내일", interests := ["카페"] }

/-- The per-turn query extracted from `extBusan`. -/
def qAddition : UserQuery :=
  parse_user_query "부산에서 놀자" "s6" (some extBusan)

/-!
Batteries marks the `Rat` field operations `@[irreducible]`; the concrete
witnesses below evaluate planner runs on example data, which needs those
operations to reduce.  Restoring the default reducibility changes no
statement and no semantics, only what `decide`/`rfl` may unfold.
-/

set_option maxRecDepth 4000

set_option allowUnsafeReducibility true in
attribute [semireducible] Rat.add Rat.mul Rat.sub Rat.inv Rat.ofScientific

/-! ## Helper lemmas -/

/-- A fresh binding is found immediately. -/
theorem mapGet_mapSet {α : Type} (m : List (String × α)) (k : String) (v : α) :
    mapGet (mapSet m k v) k = some v := by
  simp [mapGet, mapSet]

/-- `add_turn` appends exactly one turn. -/
theorem add_turn_length (c : Conversation) (t : ConversationTurn) :
    (c.add_turn t).turns.length = c.turns.length + 1 := by
  simp [Conversation.add_turn]

/-- The initial-planning handler touches no turns. -/
theorem handle_initial_planning_turns (conv : Conversation)
    (user_input : String) (ext : Option ExtractedEntities) (search : SearchFn) :
    (handle_initial_planning conv user_input ext search).conv.turns =
      conv.turns := by
  unfold handle_initial_planning
  cases hq : conv.initial_query with
  | none => rfl
  | some iq =>
    by_cases hc : (mergeIntoInitialQuery iq
        (parse_user_query user_input conv.session_id ext)).is_complete = true <;>
      simp [hc]

/-- The selection handler touches no turns. -/
theorem handle_user_selection_turns (conv : Conversation) (user_input : String)
    (hr : HandlerResult) (h : handle_user_selection conv user_input = .ok hr) :
    hr.conv.turns = conv.turns := by
  unfold handle_user_selection at h
  split at h
  · injection h with h; subst h; rfl
  · split at h
    · injection h with h; subst h; rfl
    · split at h
      · cases h
      · injection h with h; subst h; rfl

/-- No state handler touches the turn list. -/
theorem process_by_state_turns (conv : Conversation) (user_input : String)
    (ext : Option ExtractedEntities) (search : SearchFn) (hr : HandlerResult)
    (h : process_by_state conv user_input ext search = .ok hr) :
    hr.conv.turns = conv.turns := by
  unfold process_by_state at h
  split at h
  · injection h with h; subst h
    exact handle_initial_planning_turns conv user_input ext search
  · exact handle_user_selection_turns conv user_input hr h
  · injection h with h; subst h
    unfold handle_result_feedback
    split
    · rfl
    · split <;> rfl
  · injection h with h; subst h; rfl

/-! ## Claim theorems -/

/-- C1: the claim asserts that `start_conversation` on a complete query
returns a response listing the numbered candidates and leaves the state
`AWAITING_USER_SELECTION`.  The code cannot: every branch assigns the
nonexistent enum member `ConversationState.AWAITING_USER_INPUT`, so the
call raises `AttributeError` for every input — the venue search does run
first in the complete case (shown for the claim's own scenario), but no
turn is recorded and the stored conversation stays at `INITIAL_PLANNING`
with no turns. -/
theorem C1_start_conversation_always_raises (st : AgentState)
    (sid text : String) (ext : Option ExtractedEntities) (search : SearchFn) :
    (start_conversation st sid text ext search).outcome = .error () ∧
    (∃ c, mapGet (start_conversation st sid text ext search).state.store sid =
        some c ∧ c.turns = [] ∧ c.current_state = .INITIAL_PLANNING) ∧
    (start_conversation {} "s1" "서울에서 문화재 좋아해 예산 10만원"
      (some extSeoul) searchOneSpot).searchInvoked = true := by
  refine ⟨?_, ?_, rfl⟩
  · simp only [start_conversation]
    split
    · split <;> rfl
    · rfl
  · simp only [start_conversation]
    split
    · split <;> exact ⟨_, mapGet_mapSet _ _ _, rfl, rfl⟩
    · exact ⟨_, mapGet_mapSet _ _ _, rfl, rfl⟩

/-- C2: the claim asserts each successful `handle_user_input` on an
existing session appends exactly one turn; the code appends the same turn
twice — once directly and once through `ConversationManager.update_turn`
acting on the same stored object — so the stored conversation's turn count
grows by exactly two. -/
theorem C2_handle_user_input_appends_two (st : AgentState)
    (sid text : String) (ext : Option ExtractedEntities) (search : SearchFn)
    (conv c : Conversation)
    (hconv : mapGet st.store sid = some conv)
    (hc : (handle_user_input st sid text ext search).convAfter = some c)
    (hok : (handle_user_input st sid text ext search).outcome.isOk = true) :
    c.turns.length = conv.turns.length + 2 := by
  simp only [handle_user_input, hconv] at hc hok
  cases hp : process_by_state conv text ext search with
  | error e => simp [hp, Except.isOk, Except.toBool] at hok
  | ok hr =>
    simp only [hp, Option.some.injEq] at hc
    have ht := process_by_state_turns conv text ext search hr hp
    simp [← hc, Conversation.add_turn, ht]

/-- Witness for C2 at a concrete state: one dispatched input on a session
whose conversation has no turns leaves the stored conversation with two. -/
theorem C2_witness :
    ∃ c, (handle_user_input stExisting "s" "추가 정보" none
        noSearchFn).convAfter = some c ∧
      c.turns.length = convExisting.turns.length + 2 :=
  ⟨_, rfl, C2_handle_user_input_appends_two stExisting "s" "추가 정보" none
    noSearchFn convExisting _ rfl rfl rfl⟩

/-- Inside the budget-trim loop the stored cost total always equals the
recomputed sum: `_recalculate_totals` runs after every removal. -/
theorem trimLoop_cost (target : Int) :
    ∀ (fuel : Nat) (st : TrimState) (sorted : List DatePlanItem)
      (r : TrimState),
      trimLoop target fuel st sorted = some r →
      st.total_estimated_cost = sumTotalCost st.items →
      r.total_estimated_cost = sumTotalCost r.items := by
  intro fuel
  induction fuel with
  | zero => intro st sorted r h hc; cases h
  | succ n ih =>
    intro st sorted r h hc
    unfold trimLoop at h
    split at h
    · cases sorted with
      | nil => cases h
      | cons e rest => exact ih _ rest r h rfl
    · cases h; exact hc

/-- Same for the stored duration total. -/
theorem trimLoop_duration (target : Int) :
    ∀ (fuel : Nat) (st : TrimState) (sorted : List DatePlanItem)
      (r : TrimState),
      trimLoop target fuel st sorted = some r →
      st.total_duration_minutes = sumDuration st.items →
      r.total_duration_minutes = sumDuration r.items := by
  intro fuel
  induction fuel with
  | zero => intro st sorted r h hd; cases h
  | succ n ih =>
    intro st sorted r h hd
    unfold trimLoop at h
    split at h
    · cases sorted with
      | nil => cases h
      | cons e rest => exact ih _ rest r h rfl
    · cases h; exact hd

/-- C4: the aggregate totals equal the per-item sums after every mutating
operation — plan creation establishes the invariant, and `add_item`,
`remove_item`, time-pace adjustment, budget trim and spot replacement all
preserve it (each either recomputes the totals or leaves the plan
untouched). -/
theorem C4_totals_invariant :
    (∀ (spots : List TouristSpot) (prefs : PlannerPrefs),
      planTotalsConsistent (create_date_plan spots prefs)) ∧
    (∀ (p : DatePlan) (it : DatePlanItem),
      planTotalsConsistent (p.add_item it)) ∧
    (∀ (p : DatePlan) (idx : Nat), planTotalsConsistent p →
      planTotalsConsistent (p.remove_item idx)) ∧
    (∀ (p : DatePlan) (params : ModifyParams),
      planTotalsConsistent (adjust_timing p params)) ∧
    (∀ (p : DatePlan) (params : ModifyParams), planTotalsConsistent p →
      planTotalsConsistent (adjust_budget p params)) ∧
    (∀ (p : DatePlan) (params : ModifyParams),
      planTotalsConsistent (replace_spots p params)) := by
  refine ⟨fun _ _ => ⟨rfl, rfl⟩, fun _ _ => ⟨rfl, rfl⟩, ?_, fun _ _ => ⟨rfl, rfl⟩,
    ?_, fun _ _ => ⟨rfl, rfl⟩⟩
  · intro p idx h
    unfold DatePlan.remove_item
    split
    · exact ⟨rfl, rfl⟩
    · exact h
  · intro p params h
    obtain ⟨h1, h2⟩ := h
    unfold adjust_budget trimRun
    split
    · cases htl : trimLoop (trimTarget p params) (p.items.length + 1)
          (initTrimState p) (sortedByCost p) with
      | some r =>
        simp only [htl, Option.getD_some]
        exact ⟨trimLoop_cost _ _ _ _ _ htl h1,
          trimLoop_duration _ _ _ _ _ htl h2⟩
      | none =>
        simp only [htl, Option.getD_none]
        exact ⟨h1, h2⟩
    · exact ⟨h1, h2⟩

/-- Witness for C4 at a concrete plan: removal and budget trim keep the
invariant established at construction. -/
theorem C4_witness :
    planTotalsConsistent planW ∧
    planTotalsConsistent (planW.remove_item 0) ∧
    planTotalsConsistent (adjust_budget planW trimParams8) :=
  ⟨⟨rfl, rfl⟩,
   C4_totals_invariant.2.2.1 planW 0 ⟨rfl, rfl⟩,
   C4_totals_invariant.2.2.2.2.1 planW trimParams8 ⟨rfl, rfl⟩⟩

/-- The default-party-size sum: summed `get_total_cost()` is the summed
`cost * 2 + transport` formula. -/
theorem sumTotalCost_eq_formula (items : List DatePlanItem) :
    sumTotalCost items = (items.map itemCostFormula).sum := by
  induction items with
  | nil => rfl
  | cons it rest ih =>
    simp only [sumTotalCost, List.map_cons, List.sum_cons] at ih ⊢
    rw [ih]
    rfl

/-- C10: every stored total cost is computed at a fixed party size of two —
`get_total_cost` defaults `num_people` to 2, each recomputation uses the
default, so after creation and after every mutating operation the total is
the sum of `spot cost * 2` plus outbound transportation cost (zero when
absent); no call site supplies another party size. -/
theorem C10_party_of_two :
    (∀ it : DatePlanItem, it.get_total_cost = itemCostFormula it) ∧
    (∀ (it : DatePlanItem) (n : Int),
      it.get_total_cost n = it.spot.estimated_cost * n +
        (match it.transportation_to_next with
         | some t => t.cost
         | none => 0)) ∧
    (∀ (spots : List TouristSpot) (prefs : PlannerPrefs),
      planCostFixedParty (create_date_plan spots prefs)) ∧
    (∀ (p : DatePlan) (it : DatePlanItem),
      planCostFixedParty (p.add_item it)) ∧
    (∀ (p : DatePlan) (idx : Nat), planCostFixedParty p →
      planCostFixedParty (p.remove_item idx)) ∧
    (∀ (p : DatePlan) (params : ModifyParams),
      planCostFixedParty (adjust_timing p params)) ∧
    (∀ (p : DatePlan) (params : ModifyParams), planCostFixedParty p →
      planCostFixedParty (adjust_budget p params)) ∧
    (∀ (p : DatePlan) (params : ModifyParams),
      planCostFixedParty (replace_spots p params)) := by
  have hr : ∀ p : DatePlan,
      planCostFixedParty (DatePlan.recalculate_totals p) := by
    intro p
    unfold planCostFixedParty DatePlan.recalculate_totals
    exact sumTotalCost_eq_formula p.items
  refine ⟨fun it => rfl, fun it n => rfl, fun spots prefs => hr _,
    fun p it => hr _, ?_, fun p params => hr _, ?_, fun p params => hr _⟩
  · intro p idx h
    unfold DatePlan.remove_item
    split
    · exact hr _
    · exact h
  · intro p params h
    unfold planCostFixedParty at h
    rw [← sumTotalCost_eq_formula] at h
    unfold adjust_budget trimRun
    split
    · cases htl : trimLoop (trimTarget p params) (p.items.length + 1)
          (initTrimState p) (sortedByCost p) with
      | some r =>
        simp only [htl, Option.getD_some]
        unfold planCostFixedParty
        rw [← sumTotalCost_eq_formula]
        exact trimLoop_cost _ _ _ _ _ htl h
      | none =>
        simp only [htl, Option.getD_none]
        unfold planCostFixedParty
        rw [← sumTotalCost_eq_formula]
        exact h
    · unfold planCostFixedParty
      rw [← sumTotalCost_eq_formula]
      exact h

/-- Witness for C10 at a concrete plan: removal and budget trim keep the
fixed-party formula established at construction. -/
theorem C10_witness :
    planCostFixedParty (planW.remove_item 1) ∧
    planCostFixedParty (adjust_budget planW trimParams8) :=
  ⟨C10_party_of_two.2.2.2.2.1 planW 1 (sumTotalCost_eq_formula planW.items),
   C10_party_of_two.2.2.2.2.2.2.1 planW trimParams8
     (sumTotalCost_eq_formula planW.items)⟩

/-- The location summand lies between 0 and its weight. -/
theorem locationScore_bounds (v : Option String) :
    0 ≤ locationScore v ∧ locationScore v ≤ 0.35 := by
  cases v with
  | none => norm_num [locationScore]
  | some s =>
    simp only [locationScore]
    split <;> norm_num

/-- The date summand lies between 0 and its weight. -/
theorem dateScore_bounds (v : Option String) :
    0 ≤ dateScore v ∧ dateScore v ≤ 0.25 := by
  cases v with
  | none => norm_num [dateScore]
  | some s =>
    simp only [dateScore]
    split <;> norm_num

/-- The interests summand lies between 0 and its weight. -/
theorem interestsScore_bounds (v : Option InterestsValue) :
    0 ≤ interestsScore v ∧ interestsScore v ≤ 0.20 := by
  cases v with
  | none => norm_num [interestsScore]
  | some iv =>
    cases iv with
    | list l =>
      simp only [interestsScore]
      split <;> norm_num
    | str s =>
      simp only [interestsScore]
      split <;> norm_num

/-- The budget summand lies between 0 and its weight. -/
theorem budgetScore_bounds (v : Option BudgetValue) :
    0 ≤ budgetScore v ∧ budgetScore v ≤ 0.10 := by
  cases v with
  | none => norm_num [budgetScore]
  | some b => norm_num [budgetScore]

/-- C7: the confidence score is a deterministic weighted presence count
whose weights (0.35, 0.25, 0.20, 0.10) sum to 0.9 ≤ 1; it is never
negative and never exceeds that sum (so the defined maximum is 0.9, which
the `min(score, 1)` cap never binds); the empty extraction scores 0; an
extraction with location, date, an interest list and a budget all present
scores exactly the maximum 0.9; and filling any previously absent
attribute never decreases the score. -/
theorem C7_confidence_monotone :
    ((0.35 : ℚ) + 0.25 + 0.20 + 0.10 = 0.9 ∧ (0.9 : ℚ) ≤ 1) ∧
    (∀ e : ExtractedEntities, 0 ≤ calculate_confidence_from_gemini e ∧
      calculate_confidence_from_gemini e ≤ 0.9) ∧
    (calculate_confidence_from_gemini {} = 0) ∧
    (∀ (ls ds : String) (il : List String) (b : BudgetValue),
      ls ≠ "" → ds ≠ "" → il ≠ [] →
      calculate_confidence_from_gemini
        { location := some ls, date := some ds
          interests := some (.list il), budget := some b } = 0.9) ∧
    (∀ (e : ExtractedEntities) (v : Option String),
      e.location = none ∨ e.location = some "" →
      calculate_confidence_from_gemini e ≤
        calculate_confidence_from_gemini { e with location := v }) ∧
    (∀ (e : ExtractedEntities) (v : Option String),
      e.date = none ∨ e.date = some "" →
      calculate_confidence_from_gemini e ≤
        calculate_confidence_from_gemini { e with date := v }) ∧
    (∀ (e : ExtractedEntities) (v : Option InterestsValue),
      e.interests = none ∨ e.interests = some (.list []) ∨
        e.interests = some (.str "") →
      calculate_confidence_from_gemini e ≤
        calculate_confidence_from_gemini { e with interests := v }) ∧
    (∀ (e : ExtractedEntities) (v : Option BudgetValue),
      e.budget = none →
      calculate_confidence_from_gemini e ≤
        calculate_confidence_from_gemini { e with budget := v }) := by
  refine ⟨⟨by norm_num, by norm_num⟩, ?_, ?_, ?_, ?_, ?_, ?_, ?_⟩
  · intro e
    constructor
    · refine le_min ?_ (by norm_num)
      have l := (locationScore_bounds e.location).1
      have d := (dateScore_bounds e.date).1
      have i := (interestsScore_bounds e.interests).1
      have b := (budgetScore_bounds e.budget).1
      linarith
    · refine le_trans (min_le_left _ _) ?_
      have l := (locationScore_bounds e.location).2
      have d := (dateScore_bounds e.date).2
      have i := (interestsScore_bounds e.interests).2
      have b := (budgetScore_bounds e.budget).2
      linarith
  · norm_num [calculate_confidence_from_gemini, locationScore, dateScore,
      interestsScore, budgetScore]
  · intro ls ds il b h1 h2 h3
    have e1 : (ls == "") = false := beq_eq_false_iff_ne.mpr h1
    have e2 : (ds == "") = false := beq_eq_false_iff_ne.mpr h2
    have e3 : il.isEmpty = false := by
      cases il with
      | nil => exact absurd rfl h3
      | cons a as => rfl
    simp only [calculate_confidence_from_gemini, locationScore, dateScore,
      interestsScore, budgetScore, e1, e2, e3, Bool.false_eq_true, if_false]
    norm_num
  · intro e v h
    have hz : locationScore e.location = 0 := by
      rcases h with h | h <;> simp [h, locationScore]
    unfold calculate_confidence_from_gemini
    refine min_le_min ?_ le_rfl
    have := (locationScore_bounds v).1
    simp only [hz]
    linarith
  · intro e v h
    have hz : dateScore e.date = 0 := by
      rcases h with h | h <;> simp [h, dateScore]
    unfold calculate_confidence_from_gemini
    refine min_le_min ?_ le_rfl
    have := (dateScore_bounds v).1
    simp only [hz]
    linarith
  · intro e v h
    have hz : interestsScore e.interests = 0 := by
      rcases h with h | h | h <;> simp [h, interestsScore]
    unfold calculate_confidence_from_gemini
    refine min_le_min ?_ le_rfl
    have := (interestsScore_bounds v).1
    simp only [hz]
    linarith
  · intro e v h
    have hz : budgetScore e.budget = 0 := by simp [h, budgetScore]
    unfold calculate_confidence_from_gemini
    refine min_le_min ?_ le_rfl
    have := (budgetScore_bounds v).1
    simp only [hz]
    linarith

/-- Witness for C7 at concrete extractions: the full extraction scores the
maximum and each single attribute addition weakly increases the score. -/
theorem C7_witness :
    calculate_confidence_from_gemini
      { location := some "서울", date := some "내일"
        interests := some (.list ["카페"]), budget := some (.num 1) } = 0.9 ∧
    calculate_confidence_from_gemini {} ≤
      calculate_confidence_from_gemini { location := some "서울" } ∧
    calculate_confidence_from_gemini {} ≤
      calculate_confidence_from_gemini { date := some "주말" } ∧
    calculate_confidence_from_gemini {} ≤
      calculate_confidence_from_gemini { interests := some (.list ["카페"]) } ∧
    calculate_confidence_from_gemini {} ≤
      calculate_confidence_from_gemini { budget := some (.num 0) } :=
  ⟨C7_confidence_monotone.2.2.2.1 "서울" "내일" ["카페"] (.num 1)
      (by decide) (by decide) (by decide),
   C7_confidence_monotone.2.2.2.2.1 {} (some "서울") (Or.inl rfl),
   C7_confidence_monotone.2.2.2.2.2.1 {} (some "주말") (Or.inl rfl),
   C7_confidence_monotone.2.2.2.2.2.2.1 {} (some (.list ["카페"])) (Or.inl rfl),
   C7_confidence_monotone.2.2.2.2.2.2.2 {} (some (.num 0)) rfl⟩

/-- Location after the merge: filled from the new query exactly when the
new one is truthy and the running one is falsy. -/
theorem merge_location (base add : UserQuery) :
    (mergeIntoInitialQuery base add).location =
      if (Option.any (fun s => s != "") add.location &&
          !Option.any (fun s => s != "") base.location) = true then
        add.location
      else base.location := by
  by_cases c1 : (Option.any (fun s => s != "") add.location &&
      !Option.any (fun s => s != "") base.location) = true <;>
    simp [mergeIntoInitialQuery, c1, apply_ite]

/-- Budget after the merge: filled from the new query exactly when the new
one is truthy and the running one is falsy. -/
theorem merge_budget (base add : UserQuery) :
    (mergeIntoInitialQuery base add).budget =
      if (Option.any (fun b => b != 0) add.budget &&
          !Option.any (fun b => b != 0) base.budget) = true then
        add.budget
      else base.budget := by
  by_cases c1 : (Option.any (fun s => s != "") add.location &&
      !Option.any (fun s => s != "") base.location) = true <;>
  by_cases c2 : (Option.any (fun b => b != 0) add.budget &&
      !Option.any (fun b => b != 0) base.budget) = true <;>
    simp [mergeIntoInitialQuery, c1, c2, apply_ite]

/-- The merge never touches the date. -/
theorem merge_date (base add : UserQuery) :
    (mergeIntoInitialQuery base add).date = base.date := by
  by_cases c1 : (Option.any (fun s => s != "") add.location &&
      !Option.any (fun s => s != "") base.location) = true <;>
  by_cases c2 : (Option.any (fun b => b != 0) add.budget &&
      !Option.any (fun b => b != 0) base.budget) = true <;>
    simp [mergeIntoInitialQuery, c1, c2, apply_ite]

/-- The merged interest list is the dedup of old-then-new. -/
theorem merge_interests (base add : UserQuery) :
    (mergeIntoInitialQuery base add).interests =
      (base.get_interests ++ add.get_interests).dedup := by
  by_cases c1 : (Option.any (fun s => s != "") add.location &&
      !Option.any (fun s => s != "") base.location) = true <;>
  by_cases c2 : (Option.any (fun b => b != 0) add.budget &&
      !Option.any (fun b => b != 0) base.budget) = true <;>
    simp [mergeIntoInitialQuery, UserQuery.get_interests, c1, c2, apply_ite]

/-- C6 (amended): after the merge, every attribute of the running query
that was previously truthy — location non-null and non-empty, budget
non-null and non-zero — keeps its value, the date is never touched, and
the interest list becomes the duplicate-free union of old and new.  (The
claim's wording "previously non-null" fails: Python truthiness also
treats the non-null values `""` and `0.0` as absent, see the
counterexample.) -/
theorem C6_merge_monotone (base add : UserQuery) :
    (∀ s : String, base.location = some s → s ≠ "" →
      (mergeIntoInitialQuery base add).location = some s) ∧
    (∀ b : ℚ, base.budget = some b → b ≠ 0 →
      (mergeIntoInitialQuery base add).budget = some b) ∧
    (mergeIntoInitialQuery base add).date = base.date ∧
    (mergeIntoInitialQuery base add).interests.toFinset =
      base.get_interests.toFinset ∪ add.get_interests.toFinset ∧
    (mergeIntoInitialQuery base add).interests.Nodup := by
  refine ⟨?_, ?_, merge_date base add, ?_, ?_⟩
  · intro s hs hne
    rw [merge_location, if_neg]
    · exact hs
    · simp [hs, hne]
  · intro b hb hne
    rw [merge_budget, if_neg]
    · exact hb
    · simp [hb, hne]
  · rw [merge_interests]
    ext a
    simp
  · rw [merge_interests]
    exact List.nodup_dedup _

/-- Counterexample to C6 as frozen: the running query's location `""` is
non-null, yet the merge overwrites it with the newly extracted `"부산"`
(Python's falsy test treats `""` as absent), both at the merge step and
through `_handle_initial_planning`. -/
theorem C6_counterexample :
    qEmptyLoc.location = some "" ∧
    (mergeIntoInitialQuery qEmptyLoc
      (parse_user_query "부산에서 놀자" "s6" (some extBusan))).location =
      some "부산" ∧
    (handle_initial_planning convEmptyLoc "부산에서 놀자" (some extBusan)
        noSearchFn).conv.initial_query.map (fun q => q.location) =
      some (some "부산") :=
  ⟨rfl, rfl, by decide⟩

/-- Witness for C6 at a fully specified running query: location, budget
and date survive a merge and the interests stay duplicate-free. -/
theorem C6_witness :
    (mergeIntoInitialQuery qFull qAddition).location = some "서울" ∧
    (mergeIntoInitialQuery qFull qAddition).budget = some 100000 ∧
    (mergeIntoInitialQuery qFull qAddition).date = qFull.date ∧
    (mergeIntoInitialQuery qFull qAddition).interests.Nodup :=
  ⟨(C6_merge_monotone qFull qAddition).1 "서울" rfl (by decide),
   (C6_merge_monotone qFull qAddition).2.1 100000 rfl (by norm_num),
   (C6_merge_monotone qFull qAddition).2.2.1,
   (C6_merge_monotone qFull qAddition).2.2.2.2⟩

/-- `is_complete` unpacked: a located (non-null, non-blank) query with at
least one interest. -/
theorem is_complete_iff (q : UserQuery) :
    q.is_complete = true ↔
      (∃ s, q.location = some s ∧ pyStrip s ≠ "") ∧ q.get_interests ≠ [] := by
  unfold UserQuery.is_complete UserQuery.has_location
  cases hl : q.location with
  | none => simp [hl]
  | some s => simp [hl, List.isEmpty_iff]

/-- C5 (amended): inside `_handle_initial_planning`, venue search runs if
and only if the merged running query exists, its location is non-null
*and non-blank after stripping*, and its interest list is non-empty; when
search does not run the handler replies with a clarification request and
stays in `INITIAL_PLANNING`.  The claim's examples hold:
`Query(location="서울", interests=["카페"])` triggers search,
`Query(location=None, interests=["카페"])` does not. -/
theorem C5_completeness_gate :
    (∀ (conv : Conversation) (text : String) (ext : Option ExtractedEntities)
      (search : SearchFn),
      (handle_initial_planning conv text ext search).searchInvoked = true ↔
        ∃ q s,
          (handle_initial_planning conv text ext search).conv.initial_query =
            some q ∧ q.location = some s ∧ pyStrip s ≠ "" ∧
            q.get_interests ≠ []) ∧
    (∀ (conv : Conversation) (text : String) (ext : Option ExtractedEntities)
      (search : SearchFn),
      (handle_initial_planning conv text ext search).searchInvoked = false →
      (∃ a b c, (handle_initial_planning conv text ext search).response =
        .clarification a b c) ∧
      (handle_initial_planning conv text ext search).next =
        .INITIAL_PLANNING) ∧
    (handle_initial_planning convSeoulCafe "계속" none
      noSearchFn).searchInvoked = true ∧
    (handle_initial_planning convNoneLoc "계속" none
      noSearchFn).searchInvoked = false := by
  refine ⟨?_, ?_, by decide, by decide⟩
  · intro conv text ext search
    cases hq : conv.initial_query with
    | none => simp [handle_initial_planning, hq]
    | some iq =>
      by_cases hc : (mergeIntoInitialQuery iq
          (parse_user_query text conv.session_id ext)).is_complete = true
      · simp only [handle_initial_planning, hq, hc, if_true]
        obtain ⟨⟨s, hs1, hs2⟩, hint⟩ := (is_complete_iff _).mp hc
        simp only [Option.some.injEq, true_iff]
        exact ⟨_, s, rfl, hs1, hs2, hint⟩
      · simp only [handle_initial_planning, hq, hc, if_false,
          Bool.false_eq_true, false_iff]
        rintro ⟨q, s, hq2, hs1, hs2, hint⟩
        injection hq2 with hq2
        subst hq2
        exact hc ((is_complete_iff _).mpr ⟨⟨s, hs1, hs2⟩, hint⟩)
  · intro conv text ext search h
    cases hq : conv.initial_query with
    | none =>
      have hresp : (handle_initial_planning conv text ext search).response =
          generate_clarification_request
            (parse_user_query text conv.session_id ext) := by
        simp [handle_initial_planning, hq]
      have hnext : (handle_initial_planning conv text ext search).next =
          ConversationState.INITIAL_PLANNING := by
        simp [handle_initial_planning, hq]
      exact ⟨⟨_, _, _, by rw [hresp]; rfl⟩, hnext⟩
    | some iq =>
      by_cases hc : (mergeIntoInitialQuery iq
          (parse_user_query text conv.session_id ext)).is_complete = true
      · rw [show (handle_initial_planning conv text ext search).searchInvoked
            = true by simp [handle_initial_planning, hq, hc]] at h
        cases h
      · have hresp : (handle_initial_planning conv text ext search).response =
            generate_clarification_request (mergeIntoInitialQuery iq
              (parse_user_query text conv.session_id ext)) := by
          simp [handle_initial_planning, hq, hc]
        have hnext : (handle_initial_planning conv text ext search).next =
            ConversationState.INITIAL_PLANNING := by
          simp [handle_initial_planning, hq, hc]
        exact ⟨⟨_, _, _, by rw [hresp]; rfl⟩, hnext⟩

/-- Counterexample to C5 as frozen: a running query with the *non-null*
location `" "` and non-empty interests does not trigger search — the gate
also needs a non-blank location — and the handler re-asks instead. -/
theorem C5_counterexample :
    convBlankLoc.initial_query.map (fun q => q.location) = some (some " ") ∧
    convBlankLoc.initial_query.map (fun q => q.get_interests) =
      some ["카페"] ∧
    (handle_initial_planning convBlankLoc "아무거나" none
      noSearchFn).searchInvoked = false ∧
    (handle_initial_planning convBlankLoc "아무거나" none noSearchFn).next =
      .INITIAL_PLANNING ∧
    (handle_initial_planning convBlankLoc "아무거나" none
      noSearchFn).conv.initial_query.map (fun q => q.location) =
      some (some " ") :=
  ⟨rfl, rfl, by decide, by decide, by decide⟩

/-- Witness for C5: with no location on file the handler asks a
clarifying question and stays in `INITIAL_PLANNING`. -/
theorem C5_witness :
    (∃ a b c, (handle_initial_planning convNoneLoc "계속" none
      noSearchFn).response = .clarification a b c) ∧
    (handle_initial_planning convNoneLoc "계속" none noSearchFn).next =
      .INITIAL_PLANNING :=
  C5_completeness_gate.2.1 convNoneLoc "계속" none noSearchFn (by decide)

/-- `flatMap` distributes over append. -/
theorem flatMapAppend {α β : Type} (l1 l2 : List α) (f : α → List β) :
    (l1 ++ l2).flatMap f = l1.flatMap f ++ l2.flatMap f := by
  induction l1 with
  | nil => rfl
  | cons x xs ih => simp [ih]

/-- `flatMap` after `map` is one `flatMap`. -/
theorem flatMapMap {α β γ : Type} (l : List α) (g : α → β) (f : β → List γ) :
    (l.map g).flatMap f = l.flatMap (fun a => f (g a)) := by
  induction l with
  | nil => rfl
  | cons x xs ih => simp [ih]

/-- Pointwise-equal functions give equal `flatMap`s. -/
theorem flatMapCongr {α β : Type} (l : List α) (f g : α → List β)
    (h : ∀ a, f a = g a) : l.flatMap f = l.flatMap g := by
  induction l with
  | nil => rfl
  | cons x xs ih => simp [h x, ih]

/-- The numeric resolution case in two equivalent forms: guard-and-head
versus range-check-and-take. -/
theorem resolveNum (n : Nat) (cands : List TouristSpot) :
    (if n = 0 then []
     else
       match cands.drop (n - 1) with
       | c :: _ => [c]
       | [] => []) =
      (if 1 ≤ n ∧ n ≤ cands.length then (cands.drop (n - 1)).take 1
       else []) := by
  cases n with
  | zero => simp
  | succ m =>
    simp only [Nat.succ_ne_zero, if_false, Nat.add_sub_cancel]
    by_cases h : m + 1 ≤ cands.length
    · have hne : cands.drop m ≠ [] := by
        rw [ne_eq, List.drop_eq_nil_iff]
        omega
      cases hd : cands.drop m with
      | nil => exact absurd hd hne
      | cons c rest => simp [h]
    · have hnil : cands.drop m = [] := by
        rw [List.drop_eq_nil_iff]
        omega
      simp [h, hnil]

/-- The two-stage parse-then-resolve pipeline equals the one-pass
formulation of the amended claim. -/
theorem resolve_parse_eq_spec (text : String) (cands : List TouristSpot) :
    resolveSelections (parse_selections text) cands =
      selectionResolutionSpec text cands := by
  unfold resolveSelections parse_selections selectionResolutionSpec
  rw [flatMapAppend, flatMapMap, flatMapMap, flatMapMap]
  congr 1
  refine flatMapCongr _ _ _ (fun r => ?_)
  exact resolveNum (natOfDigits r) cands

/-- C9 (amended): in `AWAITING_USER_SELECTION`, digit runs in the input
resolve as 1-based indices into the stored candidates with out-of-range
indices ignored; name matching is limited to the five hard-coded place
names (경복궁, 인사동, 남산, 홍대, 명동) found inside the input, each
matched as a prefix of candidate names; the concatenation of both forms
the selection, and an empty resolution re-prompts with the state left at
`AWAITING_USER_SELECTION` and the conversation untouched.  The claim's
own examples hold: "1번이랑 2번" over [A, B, C] selects [A, B]; "경복궁"
selects the palace by name; "9번" over three candidates selects nothing
and re-prompts. -/
theorem C9_selection_parsing :
    (∀ (conv : Conversation) (text : String) (hr : HandlerResult),
      handle_user_selection conv text = .ok hr →
      hr.selected = selectionResolutionSpec text
        (conv.candidate_spots.getD [])) ∧
    (∀ (conv : Conversation) (text : String),
      selectionResolutionSpec text (conv.candidate_spots.getD []) = [] →
      ∃ resp, handle_user_selection conv text =
        .ok { conv := conv, response := resp
              next := .AWAITING_USER_SELECTION } ∧
        (resp = .selectionReprompt ∨ resp = .selectionNotUnderstood)) ∧
    (handle_user_selection convSelABC "1번이랑 2번").toOption.map
      (fun hr => hr.selected) = some [candA, candB] ∧
    (handle_user_selection convSelGyeong "경복궁").toOption.map
      (fun hr => hr.selected) = some [spotGyeongbok] ∧
    (handle_user_selection convSelABC "9번").toOption.map
      (fun hr => (hr.selected, hr.next)) =
      some ([], .AWAITING_USER_SELECTION) := by
  refine ⟨?_, ?_, by decide, by decide, by decide⟩
  · intro conv text hr h
    unfold handle_user_selection at h
    split at h
    · injection h with h
      subst h
      rw [← resolve_parse_eq_spec]
      rw [List.isEmpty_iff] at *
      simp_all
      rfl
    · split at h
      · injection h with h
        subst h
        rw [← resolve_parse_eq_spec]
        simp_all [List.isEmpty_iff]
      · split at h
        · cases h
        · injection h with h
          subst h
          rw [← resolve_parse_eq_spec]
  · intro conv text hspec
    rw [← resolve_parse_eq_spec] at hspec
    by_cases h1 : (parse_selections text).isEmpty
    · exact ⟨.selectionReprompt, by simp [handle_user_selection, h1],
        Or.inl rfl⟩
    · have h2 : (resolveSelections (parse_selections text)
          (conv.candidate_spots.getD [])).isEmpty = true := by
        rw [hspec]
        rfl
      exact ⟨.selectionNotUnderstood,
        by simp [handle_user_selection, h1, h2], Or.inr rfl⟩

/-- Counterexample to C9 as frozen: the input "한강" is a prefix of the
sole candidate's name "한강공원", so by the claim it should resolve to
that spot; the code only matches the five hard-coded place names, resolves
nothing, and re-prompts without changing anything. -/
theorem C9_counterexample :
    strStartsWith hangangSpot.name "한강" = true ∧
    convSelHangang.candidate_spots = some [hangangSpot] ∧
    (handle_user_selection convSelHangang "한강").toOption.map
      (fun hr => (hr.selected, hr.next, hr.conv)) =
      some ([], .AWAITING_USER_SELECTION, convSelHangang) := by
  refine ⟨rfl, rfl, by decide⟩

/-- Witness for C9: the out-of-range "9번" resolves to nothing and the
handler re-prompts in place. -/
theorem C9_witness :
    ∃ resp, handle_user_selection convSelABC "9번" =
      .ok { conv := convSelABC, response := resp
            next := .AWAITING_USER_SELECTION } ∧
      (resp = .selectionReprompt ∨ resp = .selectionNotUnderstood) :=
  C9_selection_parsing.2.1 convSelABC "9번" (by decide)

/-- Stable descending insertion permutes. -/
theorem insDesc_perm {α β : Type} [LinearOrder β] (key : α → β) (x : α)
    (l : List α) : List.Perm (insDesc key x l) (x :: l) := by
  induction l with
  | nil => exact .refl _
  | cons y ys ih =>
    unfold insDesc
    split
    · exact .refl _
    · exact (ih.cons y).trans (List.Perm.swap x y ys)

/-- The stable descending sort permutes its input. -/
theorem sortDesc_perm {α β : Type} [LinearOrder β] (key : α → β)
    (l : List α) : List.Perm (sortDesc key l) l := by
  suffices h : ∀ (l acc : List α),
      List.Perm (l.foldl (fun acc x => insDesc key x acc) acc) (acc ++ l) by
    simpa using h l []
  intro l
  induction l with
  | nil => intro acc; simp
  | cons x xs ih =>
    intro acc
    refine ((ih (insDesc key x acc)).trans ?_)
    refine (((insDesc_perm key x acc).append_right xs).trans ?_)
    exact List.perm_middle.symm

/-- Stable descending insertion keeps the list sorted (weakly descending
in the key). -/
theorem insDesc_sorted {α β : Type} [LinearOrder β] (key : α → β) (x : α)
    (l : List α) (h : l.Pairwise (fun a b => key b ≤ key a)) :
    (insDesc key x l).Pairwise (fun a b => key b ≤ key a) := by
  induction l with
  | nil => simp [insDesc]
  | cons y ys ih =>
    rcases h with - | ⟨hy, hys⟩
    unfold insDesc
    split
    · rename_i hlt
      refine List.Pairwise.cons ?_ (List.Pairwise.cons hy hys)
      intro z hz
      rcases List.mem_cons.mp hz with rfl | hz
      · exact le_of_lt hlt
      · exact le_trans (hy z hz) (le_of_lt hlt)
    · rename_i hnlt
      refine List.Pairwise.cons ?_ (ih hys)
      intro z hz
      rcases List.mem_cons.mp ((insDesc_perm key x ys).mem_iff.mp hz) with
        rfl | hz
      · exact le_of_not_lt hnlt
      · exact hy z hz

/-- The stable descending sort sorts (weakly descending in the key). -/
theorem sortDesc_sorted {α β : Type} [LinearOrder β] (key : α → β)
    (l : List α) :
    (sortDesc key l).Pairwise (fun a b => key b ≤ key a) := by
  suffices h : ∀ (l acc : List α),
      acc.Pairwise (fun a b => key b ≤ key a) →
      (l.foldl (fun acc x => insDesc key x acc) acc).Pairwise
        (fun a b => key b ≤ key a) by
    exact h l [] (by simp)
  intro l
  induction l with
  | nil => intro acc hacc; exact hacc
  | cons x xs ih => intro acc hacc; exact ih _ (insDesc_sorted key x acc hacc)

/-- The budget-trim loop exits normally within one unit of fuel per item,
whenever the sorted list enumerates the items (which `_adjust_budget`
guarantees: it passes a sorted copy of the item list). -/
theorem trimLoop_terminates (target : Int) :
    ∀ (sorted : List DatePlanItem) (st : TrimState),
      List.Perm sorted st.items →
      ∃ r, trimLoop target (sorted.length + 1) st sorted = some r := by
  intro sorted
  induction sorted with
  | nil =>
    intro st hperm
    have hnil : st.items = [] := hperm.symm.eq_nil
    unfold trimLoop
    rw [if_neg]
    · exact ⟨st, rfl⟩
    · simp [hnil]
  | cons e rest ih =>
    intro st hperm
    unfold trimLoop
    split
    · have he : e ∈ st.items := (hperm.mem_iff).mp (List.mem_cons_self e rest)
      simp only [if_pos he, List.length_cons]
      exact ih _ (List.cons_perm_iff_perm_erase.mp hperm).2
    · exact ⟨st, rfl⟩

/-- Whatever the loop removes is the accumulated trace plus a prefix of
the sorted list, in order. -/
theorem trimLoop_removed (target : Int) :
    ∀ (fuel : Nat) (st : TrimState) (sorted : List DatePlanItem)
      (r : TrimState),
      trimLoop target fuel st sorted = some r →
      ∃ k, r.removed = st.removed ++ sorted.take k := by
  intro fuel
  induction fuel with
  | zero => intro st sorted r h; cases h
  | succ n ih =>
    intro st sorted r h
    unfold trimLoop at h
    split at h
    · cases sorted with
      | nil => cases h
      | cons e rest =>
        obtain ⟨k, hk⟩ := ih _ rest r h
        refine ⟨k + 1, ?_⟩
        rw [hk, List.take_succ_cons, List.append_assoc]
        rfl
    · cases h
      exact ⟨0, by simp⟩

/-- The loop never empties the item list (guard: more than one item). -/
theorem trimLoop_nonempty (target : Int) :
    ∀ (fuel : Nat) (st : TrimState) (sorted : List DatePlanItem)
      (r : TrimState),
      trimLoop target fuel st sorted = some r →
      st.items ≠ [] → r.items ≠ [] := by
  intro fuel
  induction fuel with
  | zero => intro st sorted r h; cases h
  | succ n ih =>
    intro st sorted r h hne
    unfold trimLoop at h
    split at h
    · rename_i hguard
      have hlen : 1 < st.items.length := by
        simp only [Bool.and_eq_true, decide_eq_true_eq] at hguard
        exact hguard.2
      cases sorted with
      | nil => cases h
      | cons e rest =>
        refine ih _ rest r h ?_
        by_cases he : e ∈ st.items
        · simp only [he, if_true]
          have : (st.items.erase e).length = st.items.length - 1 :=
            List.length_erase_of_mem he
          intro hx
          rw [hx] at this
          simp at this
          omega
        · simpa [he] using hne
    · cases h
      exact hne

/-- C8: the budget-trim loop always terminates — normal exit within one
fuel unit per item, since the descending-sorted working list enumerates
the plan's items — removals happen in weakly descending spot-cost order
(they form a prefix of the descending-sorted item list), the plan never
drops below one item, and on the claim's own example (items costing 5000,
20000, 8000, target 1000) it removes the 20000 item then the 8000 item
and stops with exactly one item while the total still exceeds the
target. -/
theorem C8_budget_trim_termination :
    (∀ (p : DatePlan) (params : ModifyParams),
      ∃ r, trimLoop (trimTarget p params) (p.items.length + 1)
        (initTrimState p) (sortedByCost p) = some r) ∧
    (∀ (p : DatePlan) (params : ModifyParams),
      ∃ k, adjust_budget_removed p params = (sortedByCost p).take k) ∧
    (∀ (p : DatePlan) (params : ModifyParams),
      (adjust_budget_removed p params).Pairwise
        (fun a b => b.spot.estimated_cost ≤ a.spot.estimated_cost)) ∧
    (∀ (p : DatePlan) (params : ModifyParams),
      p.items ≠ [] → (adjust_budget p params).items ≠ []) ∧
    (adjust_budget trimPlan8 trimParams8).items.map
      (fun it => it.spot.estimated_cost) = [5000] ∧
    (adjust_budget_removed trimPlan8 trimParams8).map
      (fun it => it.spot.estimated_cost) = [20000, 8000] ∧
    (adjust_budget trimPlan8 trimParams8).items.length = 1 ∧
    trimTarget trimPlan8 trimParams8 <
      (adjust_budget trimPlan8 trimParams8).total_estimated_cost := by
  have hterm : ∀ (p : DatePlan) (params : ModifyParams),
      ∃ r, trimLoop (trimTarget p params) (p.items.length + 1)
        (initTrimState p) (sortedByCost p) = some r := by
    intro p params
    have hperm : List.Perm (sortedByCost p) (initTrimState p).items :=
      sortDesc_perm _ p.items
    have hlen : (sortedByCost p).length = p.items.length := hperm.length_eq
    rw [← hlen]
    exact trimLoop_terminates _ _ _ hperm
  refine ⟨hterm, ?_, ?_, ?_, by decide, by decide, by decide, by decide⟩
  · intro p params
    unfold adjust_budget_removed trimRun
    split
    · obtain ⟨r, hr⟩ := hterm p params
      rw [hr]
      obtain ⟨k, hk⟩ := trimLoop_removed _ _ _ _ _ hr
      exact ⟨k, by simpa using hk⟩
    · exact ⟨0, rfl⟩
  · intro p params
    unfold adjust_budget_removed trimRun
    split
    · obtain ⟨r, hr⟩ := hterm p params
      rw [hr]
      obtain ⟨k, hk⟩ := trimLoop_removed _ _ _ _ _ hr
      have : r.removed = (sortedByCost p).take k := by simpa using hk
      rw [Option.getD_some, this]
      exact (sortDesc_sorted _ p.items).sublist (List.take_sublist _ _)
    · exact List.Pairwise.nil
  · intro p params hne
    unfold adjust_budget trimRun
    split
    · obtain ⟨r, hr⟩ := hterm p params
      rw [hr, Option.getD_some]
      exact trimLoop_nonempty _ _ _ _ _ hr hne
    · exact hne

/-- Witness for C8: trimming the example plan leaves it non-empty. -/
theorem C8_witness :
    (adjust_budget trimPlan8 trimParams8).items ≠ [] :=
  C8_budget_trim_termination.2.2.2.1 trimPlan8 trimParams8 (by decide)

/-- Every slot allocated from `cur` lies inside `[cur, cur + span]` and is
non-degenerate, provided the whole span finishes before midnight (so no
clock value wraps). -/
theorem allocate_all_in :
    ∀ (spots : List TouristSpot) (cur : Nat),
      cur + scheduleSpan spots < 1440 →
      ∀ it ∈ allocate_time_slots spots cur,
        cur ≤ it.start_time ∧ it.start_time < it.end_time ∧
          it.end_time ≤ cur + scheduleSpan spots := by
  intro spots
  induction spots with
  | nil => intro cur h it hit; cases hit
  | cons s rest ih =>
    intro cur h it hit
    cases rest with
    | nil =>
      simp only [scheduleSpan] at h ⊢
      simp only [allocate_time_slots, timeAdd, dayMinutes] at hit
      rw [Nat.mod_eq_of_lt (by omega)] at hit
      rcases List.mem_cons.mp hit with rfl | hit
      · refine ⟨le_refl _, ?_, ?_⟩ <;> simp
      · cases hit
    | cons r rs =>
      simp only [scheduleSpan] at h ⊢
      simp only [allocate_time_slots, timeAdd, dayMinutes] at hit
      have hspan : 0 ≤ scheduleSpan (r :: rs) := Nat.zero_le _
      rw [Nat.mod_eq_of_lt (show cur + (s.estimated_duration + 15) < 1440
        by omega)] at hit
      rw [Nat.mod_eq_of_lt (show cur + (s.estimated_duration + 15) + 30 < 1440
        by omega)] at hit
      rcases List.mem_cons.mp hit with rfl | hit
      · refine ⟨le_refl _, ?_, ?_⟩ <;> simp
        omega
      · obtain ⟨h1, h2, h3⟩ := ih (cur + (s.estimated_duration + 15) + 30)
          (by omega) it hit
        exact ⟨by omega, h2, by omega⟩

/-- Allocated slots are chained: each item ends no later than every later
item starts, provided the span fits the day. -/
theorem allocate_chain :
    ∀ (spots : List TouristSpot) (cur : Nat),
      cur + scheduleSpan spots < 1440 →
      (allocate_time_slots spots cur).Pairwise
        (fun a b => a.end_time ≤ b.start_time) := by
  intro spots
  induction spots with
  | nil => intro cur h; exact List.Pairwise.nil
  | cons s rest ih =>
    intro cur h
    cases rest with
    | nil =>
      simp only [allocate_time_slots]
      exact List.pairwise_singleton _ _
    | cons r rs =>
      simp only [scheduleSpan] at h
      simp only [allocate_time_slots, timeAdd, dayMinutes]
      rw [Nat.mod_eq_of_lt (show cur + (s.estimated_duration + 15) < 1440
        by omega)]
      rw [Nat.mod_eq_of_lt (show cur + (s.estimated_duration + 15) + 30 < 1440
        by omega)]
      refine List.Pairwise.cons ?_ (ih _ (by omega))
      intro b hb
      have := (allocate_all_in (r :: rs)
        (cur + (s.estimated_duration + 15) + 30) (by omega) b hb).1
      simpa using by omega

/-- The inner conflict loop yields nothing when the pivot conflicts with
no later item. -/
theorem conflictInner_nil (i : Nat) (x : DatePlanItem) :
    ∀ (j : Nat) (l : List DatePlanItem),
      (∀ b ∈ l, x.has_time_conflict b = false) →
      conflictInner i x j l = [] := by
  intro j l
  induction l generalizing j with
  | nil => intro hl; rfl
  | cons b rest ih =>
    intro hl
    simp only [conflictInner, hl b (List.mem_cons_self b rest)]
    simpa using ih (j + 1) fun c hc => hl c (List.mem_cons_of_mem b hc)

/-- The conflict scan of a pairwise conflict-free list is empty. -/
theorem conflictOuter_nil :
    ∀ (l : List DatePlanItem) (i : Nat),
      l.Pairwise (fun a b => a.has_time_conflict b = false) →
      conflictOuter i l = [] := by
  intro l
  induction l with
  | nil => intro i hl; rfl
  | cons x rest ih =>
    intro i hl
    rcases hl with - | ⟨hx, hrest⟩
    simp only [conflictOuter]
    rw [conflictInner_nil i x (i + 1) rest hx, ih (i + 1) hrest]
    rfl

/-- Transportation attachment preserves every item's time slot. -/
theorem add_transport_times :
    ∀ l : List DatePlanItem,
      (add_transportation_info l).map itemTimes = l.map itemTimes := by
  intro l
  induction l with
  | nil => rfl
  | cons x rest ih =>
    cases rest with
    | nil => rfl
    | cons y rs =>
      simp only [add_transportation_info, List.map_cons] at ih ⊢
      rw [ih]
      rfl

/-- Pairwise conflict-freedom survives transportation attachment: the
conflict test reads only the time pairs, which are preserved. -/
theorem transport_conflict_free (l : List DatePlanItem)
    (h : l.Pairwise (fun a b => a.has_time_conflict b = false)) :
    (add_transportation_info l).Pairwise
      (fun a b => a.has_time_conflict b = false) := by
  have hcf : ∀ a b : DatePlanItem,
      a.has_time_conflict b = timeConflict (itemTimes a) (itemTimes b) :=
    fun a b => rfl
  have h2 : (l.map itemTimes).Pairwise
      (fun p q => timeConflict p q = false) := by
    rw [List.pairwise_map]
    exact h.imp fun hab => by rw [← hcf]; exact hab
  rw [← add_transport_times] at h2
  rw [List.pairwise_map] at h2
  exact h2.imp fun hab => by rw [hcf]; exact hab

/-- C3 (amended): a plan built by `create_date_plan` has no two
overlapping items *provided the allocated schedule finishes before
midnight* — the parsed start minute plus the total span (durations, 15
minute buffers, 30 minute gaps) of the chosen, ordered spots stays under
24 hours.  Without that proviso the claim fails: clock values wrap at
midnight and can collide (see the counterexample). -/
theorem C3_no_overlap (spots : List TouristSpot) (prefs : PlannerPrefs)
    (h : parse_start_time (prefs.start_time.getD "10:00") +
      scheduleSpan (optimize_visit_order
        (optimize_spots spots prefs.budget prefs)) < 1440) :
    (create_date_plan spots prefs).has_time_conflicts = [] := by
  unfold create_date_plan DatePlan.recalculate_totals
    DatePlan.has_time_conflicts
  apply conflictOuter_nil
  apply transport_conflict_free
  refine (allocate_chain _ _ h).imp ?_
  intro a b hab
  simp [DatePlanItem.has_time_conflict, hab]

/-- Counterexample to C3 as frozen: three valid ten-hour spots produce a
schedule that runs past midnight, the wrapped third slot collides with
the first, and `has_time_conflicts` reports the pair (0, 2). -/
theorem C3_counterexample :
    (∀ s ∈ threeLongSpots, s.valid) ∧
    (create_date_plan threeLongSpots {}).has_time_conflicts = [(0, 2)] ∧
    (create_date_plan threeLongSpots {}).has_time_conflicts ≠ [] := by
  refine ⟨?_, by decide, by decide⟩
  intro s hs
  have hcase : s = longSpot "a" ∨ s = longSpot "b" ∨ s = longSpot "c" := by
    simpa [threeLongSpots] using hs
  rcases hcase with rfl | rfl | rfl <;>
    exact ⟨by norm_num [longSpot], by norm_num [longSpot],
      by norm_num [longSpot], by norm_num [longSpot],
      by norm_num [longSpot, locSeoul, Location.valid]⟩

/-- Witness for C3: two one-hour cafés scheduled from 10:00 fit the day
and the resulting plan is conflict-free. -/
theorem C3_witness :
    (parse_start_time (({} : PlannerPrefs).start_time.getD "10:00") +
      scheduleSpan (optimize_visit_order
        (optimize_spots twoShortSpots ({} : PlannerPrefs).budget {})) <
          1440) ∧
    (create_date_plan twoShortSpots {}).has_time_conflicts = [] :=
  ⟨by decide, C3_no_overlap twoShortSpots {} (by decide)⟩
